import Mathlib

/-!
# NewCWV (tcp_newcwv.c): a shallow embedding and its verified properties

Machine integers are natural numbers (`u32`, `u16`, `u8`) or integers (`int`)
with every wrap-around written out as a reduction modulo `2^32`.  The two
arrays of `struct newcwv` are total functions on indices; only the indices
`0..3` are cells of the C arrays, and the states of the program have
`head < 4`.  Loops carry a fuel argument and return `none` when the fuel
runs out.
-/

namespace NewCWV

/-! ## Machine arithmetic -/

/-- The modulus of 32-bit unsigned arithmetic. -/
def U32 : Nat := 4294967296

/-- Addition of two `u32` values, wrapping. -/
def u32_add (a b : Nat) : Nat := (a + b) % U32

/-- Subtraction of two `u32` values, wrapping (correct for arbitrary naturals). -/
def u32_sub (a b : Nat) : Nat := (a + (U32 - b % U32)) % U32

/-- Multiplication of two `u32` values, wrapping. -/
def u32_mul (a b : Nat) : Nat := (a * b) % U32

/-- Conversion of an `int` to `u32` (the cast `(u32) x`, and the usual
arithmetic conversion when an `int` meets a `u32` in a comparison). -/
def to_u32 (x : Int) : Nat := (x % 4294967296).toNat

/-- Conversion of a `u32` to `int` (two's complement reinterpretation). -/
def to_int (x : Nat) : Int :=
  if x % U32 < 2147483648 then ((x % U32 : Nat) : Int) else ((x % U32 : Nat) : Int) - 4294967296

/-! ## Constants of the source file -/

/-- The sentinel `UNDEF_PIPEACK`. -/
def UNDEF_PIPEACK : Int := -1

/-- The constant `TCP_RESTART_WINDOW`. -/
def TCP_RESTART_WINDOW : Nat := 1

/-- The flag bit `IS_VALID`. -/
def IS_VALID : Nat := 2

/-- The flag bit `IS_RECOVERY`. -/
def IS_RECOVERY : Nat := 1

/-- The macro `nextbin(x) = ((x)+1) & 0x03`; masking with 3 is reduction modulo 4. -/
def nextbin (x : Nat) : Nat := (x + 1) % 4

/-- The macro `prevbin(x) = ((x)-1) & 0x03` on a non-negative `int`: in two's
complement `(x - 1) & 3` is `(x + 3) mod 4` (so `prevbin(0) = 3`). -/
def prevbin (x : Nat) : Nat := (x + 3) % 4

/-! ## Data model -/

/-- The record `struct newcwv` (the unused byte `rsvd` is left out). -/
structure newcwv where
  psample : Nat → Int
  time_stamp : Nat → Nat
  pipeack : Int
  head : Nat
  flags : Nat
  prior_in_flight : Nat
  prior_retrans : Nat
  prev_snd_una : Nat
  prev_snd_nxt : Nat
  cwnd_valid_ts : Nat
  psp : Nat

/-- The fields of the kernel's `struct tcp_sock` that the module reads or
writes; `tcp_time_stamp` is the value of `tcp_time_stamp(tp)` during the call. -/
structure tcp_sock where
  snd_cwnd : Nat
  snd_ssthresh : Nat
  prior_cwnd : Nat
  mss_cache : Nat
  srtt_us : Nat
  snd_una : Nat
  snd_nxt : Nat
  total_retrans : Nat
  packets_out : Nat
  sacked_out : Nat
  lost_out : Nat
  retrans_out : Nat
  tcp_time_stamp : Nat

/-- The kernel's congestion states (`icsk_ca_state`). -/
inductive tcp_ca_state where
  | TCP_CA_Open
  | TCP_CA_Disorder
  | TCP_CA_CWR
  | TCP_CA_Recovery
  | TCP_CA_Loss
  deriving DecidableEq, Repr

/-- The kernel's congestion events; `other` stands for every event the
module does not name. -/
inductive tcp_ca_event where
  | CA_EVENT_TX_START
  | CA_EVENT_CWND_RESTART
  | CA_EVENT_COMPLETE_CWR
  | CA_EVENT_LOSS
  | other (n : Nat)
  deriving DecidableEq, Repr

/-- The connection `struct sock`: the TCP control block, the private
congestion-control area and the congestion state. -/
structure sock where
  tp : tcp_sock
  nc : newcwv
  icsk_ca_state : tcp_ca_state

/-- What the module takes from the kernel headers and the kernel's TCP code:
the constants `HZ` and `TCP_INIT_CWND`, the flag `CA_ACK_SLOWPATH`, and the
functions `tcp_is_cwnd_limited`, `tcp_slow_start`, `tcp_cong_avoid_ai`. -/
structure Kernel where
  HZ : Nat
  TCP_INIT_CWND : Nat
  CA_ACK_SLOWPATH : Nat
  tcp_is_cwnd_limited : sock → Bool
  tcp_slow_start : tcp_sock → Nat → tcp_sock
  tcp_cong_avoid_ai : tcp_sock → Nat → Nat → tcp_sock

/-- The macro `FIVEMINS = HZ*300`. -/
def FIVEMINS (K : Kernel) : Nat := K.HZ * 300

/-! ## The functions of tcp_newcwv.c -/

/-- The helper `divide_or_zero`. -/
def divide_or_zero (dividend divisor : Nat) : Nat :=
  if divisor = 0 then 0 else dividend / divisor

/-- The function `tcp_is_in_vp`: `pa << 1` is an `int` that is converted to
`u32` for the comparison with the `u32` product `snd_cwnd * mss_cache`. -/
def tcp_is_in_vp (tp : tcp_sock) (pa : Int) : Bool :=
  if pa = UNDEF_PIPEACK then true
  else decide (u32_mul tp.snd_cwnd tp.mss_cache ≤ to_u32 (pa * 2))

/-- The function `add_element`. -/
def add_element (nc : newcwv) (val : Int) (tp : tcp_sock) : newcwv :=
  let h := nextbin nc.head
  { nc with
    head := h
    psample := Function.update nc.psample h val
    time_stamp := Function.update nc.time_stamp h tp.tcp_time_stamp }

/-- The assignment `nc->psample[k] = UNDEF_PIPEACK`. -/
def mark_undefined (nc : newcwv) (k : Nat) : newcwv :=
  { nc with psample := Function.update nc.psample k UNDEF_PIPEACK }

/-- The `while` loop of `remove_expired_element`, at bin `k` with running
maximum `tmp`.  The record is changed only on the return that expires bin `k`. -/
def remove_expired_loop : Nat → newcwv → tcp_sock → Nat → Int → Option (Int × newcwv)
  | 0, _, _, _, _ => none
  | fuel + 1, nc, tp, k, tmp =>
    if nc.psample k ≠ UNDEF_PIPEACK then
      if nc.time_stamp k < u32_sub tp.tcp_time_stamp nc.psp then
        some (tmp, mark_undefined nc k)
      else
        let tmp1 := if tmp < nc.psample k then nc.psample k else tmp
        let k1 := prevbin k
        if k1 = nc.head then some (tmp1, nc)
        else remove_expired_loop fuel nc tp k1 tmp1
    else some (tmp, nc)

/-- The function `remove_expired_element`: the value returned and the record
after the call.  Five iterations visit the head and each of the four bins, and
the loop changes nothing before it returns, so a run that has not returned
after five iterations never returns (`none`). -/
def remove_expired_element (nc : newcwv) (tp : tcp_sock) : Option (Int × newcwv) :=
  remove_expired_loop 5 nc tp nc.head (nc.psample nc.head)

/-- The three assignments of the loop body of `datalim_closedown` that follow
`nc_ts += FIVEMINS`, with `nc_ts1` the new value of `nc_ts`. -/
def datalim_body (K : Kernel) (nc_ts1 : Nat) (sk : sock) : sock :=
  { sk with
    nc := { sk.nc with cwnd_valid_ts := nc_ts1 }
    tp := { sk.tp with
            snd_ssthresh := max (u32_mul 3 sk.tp.snd_cwnd / 4) sk.tp.snd_ssthresh
            snd_cwnd := max (sk.tp.snd_cwnd / 2) K.TCP_INIT_CWND } }

/-- The `while` loop of `datalim_closedown` with its local `nc_ts`; the first
component of the result counts the executions of the loop body. -/
def datalim_loop (K : Kernel) : Nat → Nat → sock → Option (Nat × sock)
  | 0, _, _ => none
  | fuel + 1, nc_ts, sk =>
    if FIVEMINS K < u32_sub sk.tp.tcp_time_stamp nc_ts then
      match datalim_loop K fuel (u32_add nc_ts (FIVEMINS K))
        (datalim_body K (u32_add nc_ts (FIVEMINS K)) sk) with
      | none => none
      | some (n, r) => some (n + 1, r)
    else some (0, sk)

/-- The function `datalim_closedown` with the number of loop iterations.  The
difference `now - nc_ts` is below `2^32` and shrinks by `FIVEMINS` in every
iteration, so `2^32` iterations are enough whenever `FIVEMINS > 0`. -/
def datalim_closedown_count (K : Kernel) (sk : sock) : Option (Nat × sock) :=
  datalim_loop K U32 sk.nc.cwnd_valid_ts sk

/-- The function `datalim_closedown`. -/
def datalim_closedown (K : Kernel) (sk : sock) : Option sock :=
  (datalim_closedown_count K sk).map Prod.snd

/-- The value both `update_pipeack` and `tcp_newcwv_init` store in `psp`:
`max(3 * (tp->srtt_us >> 3), (u32) HZ)`. -/
def psp_value (K : Kernel) (tp : tcp_sock) : Nat :=
  max (u32_mul 3 (tp.srtt_us / 8)) (K.HZ % U32)

/-- The body of `if (tp->snd_una >= nc->prev_snd_nxt)` in `update_pipeack`:
a new pipeACK sample is computed and put into the buffer. -/
def update_pipeack_sample (nc : newcwv) (tp : tcp_sock) : newcwv :=
  let tmp_pipeack := to_int (u32_sub tp.snd_una nc.prev_snd_una)
  let nc1 : newcwv := { nc with prev_snd_una := tp.snd_una, prev_snd_nxt := tp.snd_nxt }
  if u32_add (nc1.time_stamp nc1.head) (nc1.psp / 4) < tp.tcp_time_stamp then
    add_element nc1 tmp_pipeack tp
  else if nc1.psample nc1.head < tmp_pipeack then
    { nc1 with psample := Function.update nc1.psample nc1.head tmp_pipeack }
  else nc1

/-- The record before the validation check of `update_pipeack`: `psp` is
recomputed, a sample is taken when due, and expired elements are removed. -/
def update_pipeack_filter (K : Kernel) (sk : sock) : Option newcwv :=
  let nc0 : newcwv := { sk.nc with psp := psp_value K sk.tp }
  let nc1 := if nc0.prev_snd_nxt ≤ sk.tp.snd_una then update_pipeack_sample nc0 sk.tp else nc0
  match remove_expired_element nc1 sk.tp with
  | none => none
  | some (r, nc2) => some { nc2 with pipeack := r }

/-- The function `update_pipeack`. -/
def update_pipeack (K : Kernel) (sk : sock) : Option sock :=
  match update_pipeack_filter K sk with
  | none => none
  | some nc3 =>
    if tcp_is_in_vp sk.tp nc3.pipeack then
      some { sk with nc := { nc3 with flags := nc3.flags ||| IS_VALID
                                      cwnd_valid_ts := sk.tp.tcp_time_stamp } }
    else
      datalim_closedown K { sk with nc := { nc3 with flags := nc3.flags &&& (65535 - IS_VALID) } }

/-- The function `tcp_newcwv_init`. -/
def tcp_newcwv_init (K : Kernel) (sk : sock) : sock :=
  { sk with
    nc := { sk.nc with
            prev_snd_una := sk.tp.snd_una
            prev_snd_nxt := sk.tp.snd_nxt
            cwnd_valid_ts := sk.tp.tcp_time_stamp
            flags := IS_VALID
            psp := psp_value K sk.tp
            head := 0
            psample := Function.update sk.nc.psample 0 UNDEF_PIPEACK
            pipeack := UNDEF_PIPEACK } }

/-- The kernel's inline `tcp_packets_in_flight`:
`packets_out - (sacked_out + lost_out) + retrans_out` in `u32` arithmetic. -/
def tcp_packets_in_flight (tp : tcp_sock) : Nat :=
  u32_add (u32_sub tp.packets_out (u32_add tp.sacked_out tp.lost_out)) tp.retrans_out

/-- The function `tcp_newcwv_cong_avoid`. -/
def tcp_newcwv_cong_avoid (K : Kernel) (sk : sock) (_ack acked : Nat) : Option sock :=
  let sk1 : sock :=
    { sk with nc := { sk.nc with prior_in_flight := tcp_packets_in_flight sk.tp
                                 prior_retrans := sk.tp.total_retrans } }
  match update_pipeack K sk1 with
  | none => none
  | some sk2 =>
    if sk2.nc.flags &&& IS_VALID = 0 ∧ K.tcp_is_cwnd_limited sk2 = false then some sk2
    else if sk2.tp.snd_cwnd ≤ sk2.tp.snd_ssthresh then
      some { sk2 with tp := K.tcp_slow_start sk2.tp acked }
    else
      some { sk2 with tp := K.tcp_cong_avoid_ai sk2.tp sk2.tp.snd_cwnd acked }

/-- The local `pipeack` of the two recovery functions after
`divide_or_zero`: the pipeACK estimate in segments. -/
def pipeack_segments (sk : sock) : Nat :=
  divide_or_zero (if sk.nc.pipeack = UNDEF_PIPEACK then 0 else to_u32 sk.nc.pipeack)
    sk.tp.mss_cache

/-- The function `tcp_newcwv_enter_recovery`. -/
def tcp_newcwv_enter_recovery (sk : sock) : sock :=
  let cwnd := max (pipeack_segments sk) sk.nc.prior_in_flight / 2
  { sk with
    nc := { sk.nc with flags := sk.nc.flags ||| IS_RECOVERY }
    tp := { sk.tp with snd_cwnd := if cwnd < 1 then 1 else cwnd } }

/-- The function `tcp_newcwv_end_recovery`. -/
def tcp_newcwv_end_recovery (K : Kernel) (sk : sock) : sock :=
  let retrans := u32_sub sk.tp.total_retrans sk.nc.prior_retrans
  let cwnd := u32_sub (max (pipeack_segments sk) sk.nc.prior_in_flight) retrans / 2
  let cwnd1 := if cwnd < TCP_RESTART_WINDOW then TCP_RESTART_WINDOW else cwnd
  tcp_newcwv_init K
    { sk with
      tp := { sk.tp with snd_cwnd := cwnd1, snd_ssthresh := cwnd1 }
      nc := { sk.nc with flags := sk.nc.flags &&& (65535 - IS_RECOVERY) } }

/-- The function `tcp_newcwv_event`. -/
def tcp_newcwv_event (K : Kernel) (sk : sock) (event : tcp_ca_event) : Option sock :=
  match event with
  | .CA_EVENT_TX_START => datalim_closedown K sk
  | .CA_EVENT_COMPLETE_CWR =>
    if sk.nc.flags &&& IS_VALID = 0 then some (tcp_newcwv_end_recovery K sk) else some sk
  | .CA_EVENT_LOSS => some (tcp_newcwv_init K sk)
  | .CA_EVENT_CWND_RESTART => some sk
  | .other _ => some sk

/-- The function `tcp_newcwv_ssthresh`. -/
def tcp_newcwv_ssthresh (sk : sock) : Nat :=
  let prior_in_flight :=
    u32_add (u32_sub (u32_sub sk.tp.packets_out sk.tp.sacked_out) sk.tp.lost_out)
      sk.tp.retrans_out
  max (prior_in_flight / 2) 2

/-- The function `tcp_newcwv_in_ack_event` (its logging is left out). -/
def tcp_newcwv_in_ack_event (K : Kernel) (sk : sock) (flags : Nat) : sock :=
  if flags &&& K.CA_ACK_SLOWPATH ≠ 0 then
    match sk.icsk_ca_state with
    | .TCP_CA_Recovery => if sk.nc.flags = 0 then tcp_newcwv_enter_recovery sk else sk
    | _ => sk
  else sk

/-- The function `tcp_newcwv_undo_cwnd`. -/
def tcp_newcwv_undo_cwnd (sk : sock) : Nat :=
  let min_window := sk.tp.snd_ssthresh / 2
  let new_window := max sk.tp.snd_cwnd sk.tp.prior_cwnd
  max new_window min_window

/-- The bin reached from `head` after `i` steps of `prevbin`: the `i`-th bin
visited by the loop of `remove_expired_element`. -/
def bin_back (head : Nat) : Nat → Nat
  | 0 => head
  | i + 1 => prevbin (bin_back head i)

/-- The state invariant of the NewCWV record: the head is an index of the
four-bin buffer and the sampling period is positive. -/
def newcwv_inv (nc : newcwv) : Prop := nc.head < 4 ∧ 0 < nc.psp

/-! ## Concrete connections used as witnesses and counterexamples -/

/-- A kernel with `HZ = 1` (so `FIVEMINS = 300`), `TCP_INIT_CWND = 10`, a
connection that is never cwnd-limited and increase primitives that add one
segment. -/
def K1 : Kernel where
  HZ := 1
  TCP_INIT_CWND := 10
  CA_ACK_SLOWPATH := 1
  tcp_is_cwnd_limited := fun _ => false
  tcp_slow_start := fun tp _ => { tp with snd_cwnd := tp.snd_cwnd + 1 }
  tcp_cong_avoid_ai := fun tp _ _ => { tp with snd_cwnd := tp.snd_cwnd + 1 }

/-- A control block with `snd_cwnd = 40`, `mss_cache = 1000` at time 0. -/
def tp1 : tcp_sock where
  snd_cwnd := 40
  snd_ssthresh := 10
  prior_cwnd := 0
  mss_cache := 1000
  srtt_us := 0
  snd_una := 0
  snd_nxt := 0
  total_retrans := 0
  packets_out := 0
  sacked_out := 0
  lost_out := 0
  retrans_out := 0
  tcp_time_stamp := 0

/-- An empty sampler: every bin undefined, `head = 0`, `psp = 100`, validated. -/
def nc1 : newcwv where
  psample := fun _ => -1
  time_stamp := fun _ => 0
  pipeack := -1
  head := 0
  flags := 2
  prior_in_flight := 0
  prior_retrans := 0
  prev_snd_una := 0
  prev_snd_nxt := 0
  cwnd_valid_ts := 0
  psp := 100

/-- A sampler whose head bin 0 holds the sample 30 taken at time 0, `psp = 100`. -/
def nc2 : newcwv := { nc1 with psample := Function.update nc1.psample 0 30 }

/-- The control block `tp1` at time 25 (exactly `psp / 4` after the head
bin of `nc2`) with 50 newly acknowledged bytes. -/
def tp2 : tcp_sock := { tp1 with tcp_time_stamp := 25, snd_una := 50 }

/-- A sampler with two live bins: the head bin 1 holds the sample 5 taken at
time 100, the older bin 0 holds the sample 9 taken at time 0; `psp = 150`. -/
def nc3 : newcwv :=
  { nc1 with
    head := 1
    psp := 150
    psample := Function.update (Function.update nc1.psample 0 9) 1 5
    time_stamp := Function.update nc1.time_stamp 1 100 }

/-- The control block `tp1` at time 200. -/
def tp3 : tcp_sock := { tp1 with tcp_time_stamp := 200 }

/-- A sampler whose only defined bin is the head bin 0, holding the sample
5000 taken at time 0. -/
def nc4 : newcwv :=
  { nc1 with
    psample := Function.update nc1.psample 0 5000
    prev_snd_una := 5000
    prev_snd_nxt := 9000 }

/-- A connection at time 200 with `snd_una = 5000 < prev_snd_nxt` (no new
sample is due), `cwnd = 40`, `mss = 1000`, whose sampler `nc4` holds a single
sample that is older than the sampling period. -/
def sk4 : sock where
  tp := { tp1 with tcp_time_stamp := 200, snd_una := 5000, snd_nxt := 9000 }
  nc := nc4
  icsk_ca_state := .TCP_CA_Open

/-- A non-validated connection with `cwnd = 40`, last validated at time 0, at
time 600, which is exactly `2 * FIVEMINS` for the kernel `K1`. -/
def sk5 : sock where
  tp := { tp1 with tcp_time_stamp := 600 }
  nc := { nc1 with flags := 0 }
  icsk_ca_state := .TCP_CA_Open

/-- The connection `sk5` at time 700, between two and three inactivity windows. -/
def sk5b : sock := { sk5 with tp := { sk5.tp with tcp_time_stamp := 700 } }

/-- A connection in recovery with an undefined pipeACK, one packet in flight
at the last `cong_avoid` (`prior_in_flight = 1`, `prior_retrans = 0`) and
three retransmissions since (`total_retrans = 3`). -/
def sk6 : sock where
  tp := { tp1 with total_retrans := 3 }
  nc := { nc1 with flags := 1, prior_in_flight := 1, prior_retrans := 0 }
  icsk_ca_state := .TCP_CA_Recovery

/-- A non-validated connection with pipeACK 30000 bytes, `mss = 1000` and
`prior_in_flight = 10`. -/
def sk7 : sock where
  tp := tp1
  nc := { nc1 with flags := 0, pipeack := 30000, prior_in_flight := 10 }
  icsk_ca_state := .TCP_CA_Recovery

/-- A non-validated connection with `cwnd = 2` (below `TCP_INIT_CWND = 10`),
last validated at time 0, at time 1000; its head bin holds the fresh sample
100 bytes and no new sample is due (`snd_una < prev_snd_nxt`). -/
def sk8 : sock where
  tp := { tp1 with snd_cwnd := 2, snd_ssthresh := 2, tcp_time_stamp := 1000 }
  nc := { nc1 with
          flags := 0
          prev_snd_nxt := 5
          psample := Function.update nc1.psample 0 100
          time_stamp := Function.update nc1.time_stamp 0 1000 }
  icsk_ca_state := .TCP_CA_Open

/-- A validated connection (`flags = IS_VALID`) with `cwnd = 40`, last
validated at time 0, that resumes transmission at time 601. -/
def sk10 : sock where
  tp := { tp1 with tcp_time_stamp := 601 }
  nc := nc1
  icsk_ca_state := .TCP_CA_Open

/-- A connection at the end of a recovery episode: pipeACK undefined,
`prior_in_flight = 10`, two retransmissions since the snapshot
(`total_retrans = 2`, `prior_retrans = 0`), recovery flag set, time 77. -/
def sk11 : sock where
  tp := { tp1 with total_retrans := 2, tcp_time_stamp := 77 }
  nc := { nc1 with flags := 1, prior_in_flight := 10, prior_retrans := 0 }
  icsk_ca_state := .TCP_CA_Recovery

/-- A connection with `packets_out = 10`, `sacked_out = 2`, `lost_out = 1`,
`retrans_out = 0`. -/
def sk17 : sock where
  tp := { tp1 with packets_out := 10, sacked_out := 2, lost_out := 1, retrans_out := 0 }
  nc := nc1
  icsk_ca_state := .TCP_CA_Open

/-- A connection with `cwnd = 10`, `prior_cwnd = 20`, `ssthresh = 8`. -/
def sk18 : sock where
  tp := { tp1 with snd_cwnd := 10, prior_cwnd := 20, snd_ssthresh := 8 }
  nc := nc1
  icsk_ca_state := .TCP_CA_Open

/-- The kernel `K1` with `HZ = 100`, for which a zero smoothed RTT gives the
sampling period `psp = 100`. -/
def K13 : Kernel := { K1 with HZ := 100 }

/-- The control block `tp1` with `snd_una = una` at time `t`. -/
def tp13 (una t : Nat) : tcp_sock := { tp1 with snd_una := una, tcp_time_stamp := t }

/-- The init baseline of the sampler scenario: `tcp_newcwv_init` at time 0
with `psp = 100`; the head bin 0 is undefined and has time stamp 0. -/
def nc13_0 : newcwv :=
  (tcp_newcwv_init K13 { tp := tp1, nc := nc1, icsk_ca_state := .TCP_CA_Open }).nc

/-- The sampler after the sample 50 at time 0. -/
def nc13_1 : newcwv := update_pipeack_sample nc13_0 (tp13 50 0)

/-- The sampler after the further sample 80 at time 10. -/
def nc13_2 : newcwv := update_pipeack_sample nc13_1 (tp13 130 10)

/-- The sampler after the further sample 90 at time 40. -/
def nc13_3 : newcwv := update_pipeack_sample nc13_2 (tp13 220 40)

/-- A connection in `TCP_CA_Recovery` with no flag set (neither validated
nor in recovery), pipeACK 30000 bytes and `prior_in_flight = 10`. -/
def sk15 : sock := sk7

/-- The connection `sk15` with a smoothed RTT for which `3 * (srtt_us >> 3)`
exceeds 32 bits (`srtt_us = 2^34`, so `3 * 2^31` wraps to `2^31`). -/
def sk14 : sock := { sk15 with tp := { tp1 with srtt_us := 17179869184 } }

/-- A connection whose last validation lies ahead of the clock
(`cwnd_valid_ts = 1000`, `now = 400`): the unsigned difference wraps to
`2^32 - 600`. -/
def sk19 : sock where
  tp := { tp1 with tcp_time_stamp := 400 }
  nc := { nc1 with flags := 0, cwnd_valid_ts := 1000 }
  icsk_ca_state := .TCP_CA_Open

/-! ## Validated-phase detector -/

/-- C1: for a pipeACK estimate `pa` that is undefined, or defined with
`0 ≤ pa < 2^30` and `cwnd * mss < 2^32`, `tcp_is_in_vp` is true exactly when
`pa` is undefined or `2 * pa ≥ cwnd * mss`; it is true for an undefined `pa`
whatever the window, true when `2 * pa = cwnd * mss` and false when
`2 * pa = cwnd * mss - 1`. -/
theorem tcp_is_in_vp_iff (tp : tcp_sock) (pa : Int)
    (h : pa = UNDEF_PIPEACK ∨
      (0 ≤ pa ∧ pa < 2 ^ 30 ∧ tp.snd_cwnd * tp.mss_cache < 2 ^ 32)) :
    (tcp_is_in_vp tp pa = true ↔
        (pa = UNDEF_PIPEACK ∨ ((tp.snd_cwnd * tp.mss_cache : Nat) : Int) ≤ 2 * pa)) ∧
      (pa = UNDEF_PIPEACK → tcp_is_in_vp tp pa = true) ∧
      (2 * pa = ((tp.snd_cwnd * tp.mss_cache : Nat) : Int) → tcp_is_in_vp tp pa = true) ∧
      (2 * pa = ((tp.snd_cwnd * tp.mss_cache : Nat) : Int) - 1 →
        tcp_is_in_vp tp pa = false) := by
  generalize hc : tp.snd_cwnd * tp.mss_cache = c at h ⊢
  by_cases hu : pa = UNDEF_PIPEACK
  · refine ⟨by simp [tcp_is_in_vp, hu], by simp [tcp_is_in_vp, hu],
      by simp [tcp_is_in_vp, hu], fun h2 => ?_⟩
    simp only [hu, UNDEF_PIPEACK] at h2
    omega
  · rcases h with h | ⟨h0, h1, h2⟩
    · exact absurd h hu
    · have hv : tcp_is_in_vp tp pa = decide (c ≤ (2 * pa).toNat) := by
        have e1 : u32_mul tp.snd_cwnd tp.mss_cache = c := by
          unfold u32_mul U32; rw [hc]; omega
        have e2 : to_u32 (pa * 2) = (2 * pa).toNat := by
          unfold to_u32; congr 1; omega
        simp only [tcp_is_in_vp, if_neg hu, e1, e2]
      rw [hv]
      simp only [decide_eq_true_eq, decide_eq_false_iff_not, hu, false_or, false_implies,
        true_and]
      refine ⟨?_, ?_, ?_⟩ <;> omega

/-- Witness for C1: `cwnd = 40`, `mss = 1000` and `pa = 20000`, where
`2 * pa = cwnd * mss`. -/
theorem tcp_is_in_vp_iff_witness :
    (tcp_is_in_vp tp1 20000 = true ↔
        ((20000 : Int) = UNDEF_PIPEACK ∨
          ((tp1.snd_cwnd * tp1.mss_cache : Nat) : Int) ≤ 2 * 20000)) ∧
      ((20000 : Int) = UNDEF_PIPEACK → tcp_is_in_vp tp1 20000 = true) ∧
      (2 * (20000 : Int) = ((tp1.snd_cwnd * tp1.mss_cache : Nat) : Int) →
        tcp_is_in_vp tp1 20000 = true) ∧
      (2 * (20000 : Int) = ((tp1.snd_cwnd * tp1.mss_cache : Nat) : Int) - 1 →
        tcp_is_in_vp tp1 20000 = false) :=
  tcp_is_in_vp_iff tp1 20000 (Or.inr (by decide))

/-! ## The pipeACK sampler: taking a sample -/

/-- Counterexample to C2 as stated: at `now = time_stamp[head] + psp/4`
exactly (25 = 0 + 100/4) the sampler does not open a new bin; the head stays
0 and the sample 50 is merged into the head bin. -/
theorem update_pipeack_sample_boundary_counterexample :
    nc2.head < 4 ∧
      nc2.time_stamp nc2.head + nc2.psp / 4 < 2 ^ 32 ∧
      nc2.time_stamp nc2.head + nc2.psp / 4 ≤ tp2.tcp_time_stamp ∧
      (update_pipeack_sample nc2 tp2).head ≠ (nc2.head + 1) % 4 ∧
      (update_pipeack_sample nc2 tp2).head = 0 ∧
      (update_pipeack_sample nc2 tp2).psample 0 = 50 := by
  decide

/-- C2 (amended): when `update_pipeack` takes a new sample
`value = (int)(snd_una - prev_snd_una)` in a state with no 32-bit wrap in
`time_stamp[head] + psp/4` (in particular in every state with `head < 4`): if `now` is strictly later than
`time_stamp[head] + psp/4`, the head becomes `(head + 1) mod 4` and that bin
holds `(value, now)` while every other bin is unchanged; otherwise (also when
`now` equals `time_stamp[head] + psp/4`) the head and all time stamps are
unchanged, `psample[head]` becomes the maximum of its old value and `value`,
and every other bin is unchanged. -/
theorem update_pipeack_sample_spec (nc : newcwv) (tp : tcp_sock)
    (hwrap : nc.time_stamp nc.head + nc.psp / 4 < 2 ^ 32) :
    (nc.time_stamp nc.head + nc.psp / 4 < tp.tcp_time_stamp →
        (update_pipeack_sample nc tp).head = (nc.head + 1) % 4 ∧
        (update_pipeack_sample nc tp).head < 4 ∧
        (update_pipeack_sample nc tp).psample (update_pipeack_sample nc tp).head =
          to_int (u32_sub tp.snd_una nc.prev_snd_una) ∧
        (update_pipeack_sample nc tp).time_stamp (update_pipeack_sample nc tp).head =
          tp.tcp_time_stamp ∧
        ∀ i, i ≠ (nc.head + 1) % 4 →
          (update_pipeack_sample nc tp).psample i = nc.psample i ∧
          (update_pipeack_sample nc tp).time_stamp i = nc.time_stamp i) ∧
      (tp.tcp_time_stamp ≤ nc.time_stamp nc.head + nc.psp / 4 →
        (update_pipeack_sample nc tp).head = nc.head ∧
        (update_pipeack_sample nc tp).time_stamp = nc.time_stamp ∧
        (update_pipeack_sample nc tp).psample nc.head =
          max (nc.psample nc.head) (to_int (u32_sub tp.snd_una nc.prev_snd_una)) ∧
        ∀ i, i ≠ nc.head → (update_pipeack_sample nc tp).psample i = nc.psample i) := by
  have hadd : u32_add (nc.time_stamp nc.head) (nc.psp / 4) =
      nc.time_stamp nc.head + nc.psp / 4 := by
    unfold u32_add U32; omega
  constructor
  · intro hlt
    have hm : (nc.head + 1) % 4 < 4 := Nat.mod_lt _ (by decide)
    simp only [update_pipeack_sample, hadd, if_pos hlt, add_element, nextbin,
      Function.update_same, true_and, hm]
    intro i hi
    simp [Function.update_noteq hi]
  · intro hle
    have hnlt : ¬ nc.time_stamp nc.head + nc.psp / 4 < tp.tcp_time_stamp := by omega
    simp only [update_pipeack_sample, hadd, if_neg hnlt]
    by_cases hv : nc.psample nc.head < to_int (u32_sub tp.snd_una nc.prev_snd_una)
    · simp only [if_pos hv, Function.update_same, true_and]
      refine ⟨(max_eq_right (le_of_lt hv)).symm, fun i hi => ?_⟩
      simp [Function.update_noteq hi]
    · simp only [if_neg hv, true_and]
      exact ⟨(max_eq_left (not_lt.mp hv)).symm, fun i _ => trivial⟩

/-- Witness for C2 (amended): the head bin of `nc2` at the boundary time 25. -/
theorem update_pipeack_sample_spec_witness :
    nc2.time_stamp nc2.head + nc2.psp / 4 < 2 ^ 32 ∧
      (tp2.tcp_time_stamp ≤ nc2.time_stamp nc2.head + nc2.psp / 4 →
        (update_pipeack_sample nc2 tp2).head = nc2.head ∧
        (update_pipeack_sample nc2 tp2).time_stamp = nc2.time_stamp ∧
        (update_pipeack_sample nc2 tp2).psample nc2.head =
          max (nc2.psample nc2.head) (to_int (u32_sub tp2.snd_una nc2.prev_snd_una)) ∧
        ∀ i, i ≠ nc2.head → (update_pipeack_sample nc2 tp2).psample i = nc2.psample i) :=
  ⟨by decide, (update_pipeack_sample_spec nc2 tp2 (by decide)).2⟩

/-! ## The pipeACK sampler: the maximum filter -/

/-- With `head < 4` the `i`-th bin visited is `(head - i) mod 4`. -/
theorem bin_back_eq (head : Nat) (hhead : head < 4) (i : Nat) :
    bin_back head i = (head + 3 * i) % 4 := by
  induction i with
  | zero => simp only [bin_back]; omega
  | succ i ih => simp only [bin_back, prevbin, ih]; omega

/-- The loop of `remove_expired_element`, started at the `i`-th visited bin
with running maximum `tmp`, when the next `n` bins are live and the bin after
them is defined and expired: it returns, the expired bin is marked undefined,
and the value returned is the maximum of `tmp` and the `n` live bins. -/
theorem remove_expired_loop_expiring (nc : newcwv) (tp : tcp_sock) (hhead : nc.head < 4) :
    ∀ (n i : Nat) (tmp : Int) (fuel : Nat), i + n < 4 → n < fuel →
      (∀ m, i ≤ m → m < i + n →
        nc.psample (bin_back nc.head m) ≠ UNDEF_PIPEACK ∧
        ¬ nc.time_stamp (bin_back nc.head m) < u32_sub tp.tcp_time_stamp nc.psp) →
      nc.psample (bin_back nc.head (i + n)) ≠ UNDEF_PIPEACK →
      nc.time_stamp (bin_back nc.head (i + n)) < u32_sub tp.tcp_time_stamp nc.psp →
      ∃ r, remove_expired_loop fuel nc tp (bin_back nc.head i) tmp =
          some (r, mark_undefined nc (bin_back nc.head (i + n))) ∧
        tmp ≤ r ∧
        (∀ m, i ≤ m → m < i + n → nc.psample (bin_back nc.head m) ≤ r) ∧
        (r = tmp ∨ ∃ m, i ≤ m ∧ m < i + n ∧ nc.psample (bin_back nc.head m) = r) := by
  intro n
  induction n with
  | zero =>
    intro i tmp fuel _ hfuel _ hdef hexp
    obtain ⟨f, rfl⟩ : ∃ f, fuel = f + 1 := ⟨fuel - 1, by omega⟩
    refine ⟨tmp, ?_, le_refl _, fun m h1 h2 => absurd h2 (by omega), Or.inl rfl⟩
    simp only [Nat.add_zero] at hdef hexp ⊢
    simp only [remove_expired_loop, if_pos hdef, if_pos hexp]
  | succ n ih =>
    intro i tmp fuel hi hfuel hlive hdef hexp
    obtain ⟨f, rfl⟩ : ∃ f, fuel = f + 1 := ⟨fuel - 1, by omega⟩
    obtain ⟨hd0, he0⟩ := hlive i (le_refl _) (by omega)
    have hne : prevbin (bin_back nc.head i) ≠ nc.head := by
      have := bin_back_eq nc.head hhead (i + 1)
      simp only [bin_back] at this
      rw [this]; omega
    have hidx : i + 1 + n = i + (n + 1) := by omega
    obtain ⟨r, hr, hle, hall, hex⟩ :=
      ih (i + 1) (if tmp < nc.psample (bin_back nc.head i) then
          nc.psample (bin_back nc.head i) else tmp) f (by omega) (by omega)
        (fun m h1 h2 => hlive m (by omega) (by omega))
        (by rw [hidx]; exact hdef) (by rw [hidx]; exact hexp)
    rw [hidx] at hr
    refine ⟨r, ?_, ?_, ?_, ?_⟩
    · simp only [remove_expired_loop, if_pos hd0, if_neg he0, if_neg hne]
      exact hr
    · split at hle <;> omega
    · intro m h1 h2
      by_cases hm : m = i
      · subst hm; split at hle <;> omega
      · exact hall m (by omega) (by omega)
    · rcases hex with hex | ⟨m, h1, h2, h3⟩
      · by_cases hlt : tmp < nc.psample (bin_back nc.head i)
        · rw [if_pos hlt] at hex
          exact Or.inr ⟨i, le_refl _, by omega, hex.symm⟩
        · rw [if_neg hlt] at hex
          exact Or.inl hex
      · exact Or.inr ⟨m, by omega, by omega, h3⟩

/-- Counterexample to C3 as stated: with head bin 1 live (sample 5) and the
older bin 0 defined and expired (sample 9, time stamp 0 < 200 - 150), the
value returned is 5, not the maximum 9 that counts the expiring bin; bin 0
is marked undefined. -/
theorem remove_expired_element_expiring_counterexample :
    nc3.psample nc3.head ≠ UNDEF_PIPEACK ∧
      ¬ nc3.time_stamp nc3.head < u32_sub tp3.tcp_time_stamp nc3.psp ∧
      nc3.psample (prevbin nc3.head) ≠ UNDEF_PIPEACK ∧
      nc3.time_stamp (prevbin nc3.head) < u32_sub tp3.tcp_time_stamp nc3.psp ∧
      (remove_expired_element nc3 tp3).map Prod.fst = some 5 ∧
      (remove_expired_element nc3 tp3).map Prod.fst ≠
        some (max (nc3.psample nc3.head) (nc3.psample (prevbin nc3.head))) ∧
      (remove_expired_element nc3 tp3).map (fun r => r.2.psample (prevbin nc3.head)) =
        some UNDEF_PIPEACK := by
  decide

/-- C3 (amended): when `remove_expired_element`, walking backward from the
head (`head < 4`) over `j ≥ 1` bins that are defined and not expired, reaches
a bin `k` (not the head) that is defined and whose time stamp is below
`now - psp`, it returns the maximum over the `j` bins visited before `k`
(the expiring bin does not count), bin `k` is marked undefined and nothing
else in the record changes. -/
theorem remove_expired_element_expiring (nc : newcwv) (tp : tcp_sock) (j : Nat)
    (hhead : nc.head < 4) (hj1 : 1 ≤ j) (hj4 : j < 4)
    (hlive : ∀ i, i < j →
      nc.psample (bin_back nc.head i) ≠ UNDEF_PIPEACK ∧
      ¬ nc.time_stamp (bin_back nc.head i) < u32_sub tp.tcp_time_stamp nc.psp)
    (hdef : nc.psample (bin_back nc.head j) ≠ UNDEF_PIPEACK)
    (hexp : nc.time_stamp (bin_back nc.head j) < u32_sub tp.tcp_time_stamp nc.psp) :
    ∃ r, remove_expired_element nc tp =
        some (r, mark_undefined nc (bin_back nc.head j)) ∧
      (∀ i, i < j → nc.psample (bin_back nc.head i) ≤ r) ∧
      (∃ i, i < j ∧ nc.psample (bin_back nc.head i) = r) := by
  obtain ⟨r, hr, _, hall, hex⟩ :=
    remove_expired_loop_expiring nc tp hhead j 0 (nc.psample nc.head) 5
      (by omega) (by omega) (fun m _ h2 => hlive m (by omega))
      (by rw [Nat.zero_add]; exact hdef) (by rw [Nat.zero_add]; exact hexp)
  rw [Nat.zero_add] at hr
  refine ⟨r, hr, fun i hi => hall i (Nat.zero_le _) (by omega), ?_⟩
  rcases hex with hex | ⟨m, _, h2, h3⟩
  · exact ⟨0, by omega, hex.symm⟩
  · exact ⟨m, by omega, h3⟩

/-- Witness for C3 (amended): the sampler `nc3` at time 200, where the walk
reaches the expired bin 0 after the live head bin 1. -/
theorem remove_expired_element_expiring_witness :
    ∃ r, remove_expired_element nc3 tp3 =
        some (r, mark_undefined nc3 (bin_back nc3.head 1)) ∧
      (∀ i, i < 1 → nc3.psample (bin_back nc3.head i) ≤ r) ∧
      (∃ i, i < 1 ∧ nc3.psample (bin_back nc3.head i) = r) :=
  remove_expired_element_expiring nc3 tp3 1 (by decide) (by decide) (by decide)
    (by decide) (by decide) (by decide)

/-- On an empty buffer (the head bin is undefined) `remove_expired_element`
returns the undefined sentinel and changes nothing. -/
theorem remove_expired_element_head_undefined (nc : newcwv) (tp : tcp_sock)
    (h : nc.psample nc.head = UNDEF_PIPEACK) :
    remove_expired_element nc tp = some (UNDEF_PIPEACK, nc) := by
  simp only [remove_expired_element, remove_expired_loop, h, ne_eq, not_true_eq_false,
    if_false]

/-- C4: evaluation of the code on a fully expired buffer.  The only defined
bin of `sk4` is the head bin, and it is older than the sampling period; yet
`remove_expired_element` returns its stale value 5000 instead of the undefined
sentinel, `update_pipeack` stores 5000 as the pipeACK and clears the validated
flag. -/
theorem remove_expired_element_fully_expired_stale :
    sk4.nc.psample sk4.nc.head ≠ UNDEF_PIPEACK ∧
      (∀ k, k < 4 → sk4.nc.psample k ≠ UNDEF_PIPEACK →
        sk4.nc.time_stamp k < u32_sub sk4.tp.tcp_time_stamp sk4.nc.psp) ∧
      (remove_expired_element sk4.nc sk4.tp).map Prod.fst = some 5000 ∧
      (update_pipeack K1 sk4).map (fun r => r.nc.pipeack) = some 5000 ∧
      (update_pipeack K1 sk4).map (fun r => r.nc.flags &&& IS_VALID) = some 0 := by
  decide

/-! ## The inactivity guard -/

/-- One unfolding of the loop of `datalim_closedown`. -/
theorem datalim_loop_unfold (K : Kernel) (fuel nc_ts : Nat) (sk : sock) (hfuel : 0 < fuel) :
    datalim_loop K fuel nc_ts sk =
      if FIVEMINS K < u32_sub sk.tp.tcp_time_stamp nc_ts then
        match datalim_loop K (fuel - 1) (u32_add nc_ts (FIVEMINS K))
          (datalim_body K (u32_add nc_ts (FIVEMINS K)) sk) with
        | none => none
        | some (n, r) => some (n + 1, r)
      else some (0, sk) := by
  cases fuel with
  | zero => exact absurd hfuel (by decide)
  | succ f => rfl

/-- After `nc_ts += FIVEMINS` the elapsed time `now - nc_ts` is smaller by
exactly `FIVEMINS`, when it exceeded `FIVEMINS` before. -/
theorem u32_sub_step (now ts F : Nat) (h : F < u32_sub now ts) :
    u32_sub now (u32_add ts F) = u32_sub now ts - F := by
  unfold u32_sub u32_add U32 at *
  omega

/-- The loop of `datalim_closedown` returns whenever `FIVEMINS > 0` and the
fuel exceeds the number of whole windows elapsed.  It runs at most that many
iterations, keeps `cwnd` at or above the initial window once it was there,
never raises `cwnd` above the larger of its old value and the initial window,
never lowers `ssthresh`, and leaves the flags, the head and `psp` alone. -/
theorem datalim_loop_returns (K : Kernel) (hF : 0 < FIVEMINS K) :
    ∀ (fuel nc_ts : Nat) (sk : sock),
      u32_sub sk.tp.tcp_time_stamp nc_ts / FIVEMINS K < fuel →
      ∃ n r, datalim_loop K fuel nc_ts sk = some (n, r) ∧
        n ≤ u32_sub sk.tp.tcp_time_stamp nc_ts / FIVEMINS K ∧
        (K.TCP_INIT_CWND ≤ sk.tp.snd_cwnd → K.TCP_INIT_CWND ≤ r.tp.snd_cwnd) ∧
        r.tp.snd_cwnd ≤ max sk.tp.snd_cwnd K.TCP_INIT_CWND ∧
        sk.tp.snd_ssthresh ≤ r.tp.snd_ssthresh ∧
        r.nc.flags = sk.nc.flags ∧ r.nc.head = sk.nc.head ∧ r.nc.psp = sk.nc.psp := by
  intro fuel
  induction fuel with
  | zero => intro nc_ts sk h; exact absurd h (Nat.not_lt_zero _)
  | succ f ih =>
    intro nc_ts sk h
    rw [datalim_loop_unfold K (f + 1) nc_ts sk (by omega), Nat.add_sub_cancel]
    by_cases hd : FIVEMINS K < u32_sub sk.tp.tcp_time_stamp nc_ts
    · have hdiv : u32_sub sk.tp.tcp_time_stamp nc_ts / FIVEMINS K =
          (u32_sub sk.tp.tcp_time_stamp nc_ts - FIVEMINS K) / FIVEMINS K + 1 := by
        rw [Nat.div_eq (u32_sub sk.tp.tcp_time_stamp nc_ts) (FIVEMINS K)]
        rw [if_pos ⟨hF, le_of_lt hd⟩]
      have hts : u32_sub (datalim_body K (u32_add nc_ts (FIVEMINS K)) sk).tp.tcp_time_stamp
          (u32_add nc_ts (FIVEMINS K)) =
          u32_sub sk.tp.tcp_time_stamp nc_ts - FIVEMINS K := u32_sub_step _ _ _ hd
      obtain ⟨n, r, hr, hn, hc1, hc2, hs, hfl, hh, hp⟩ :=
        ih (u32_add nc_ts (FIVEMINS K)) (datalim_body K (u32_add nc_ts (FIVEMINS K)) sk)
          (by rw [hts]; omega)
      rw [hts] at hn
      simp only [datalim_body] at hc1 hc2 hs hfl hh hp
      refine ⟨n + 1, r, ?_, by omega, fun _ => hc1 (le_max_right _ _), ?_, ?_, hfl, hh, hp⟩
      · rw [if_pos hd, hr]
      · have : max (sk.tp.snd_cwnd / 2) K.TCP_INIT_CWND ≤ max sk.tp.snd_cwnd K.TCP_INIT_CWND :=
          max_le_max (Nat.div_le_self _ _) (le_refl _)
        exact le_trans hc2 (max_le this (le_max_right _ _))
      · exact le_trans (le_max_right _ _) hs
    · refine ⟨0, sk, by rw [if_neg hd], Nat.zero_le _, fun h => h, le_max_left _ _,
        le_refl _, rfl, rfl, rfl⟩

/-- The elapsed time `now - nc_ts` is a `u32`. -/
theorem u32_sub_lt (a b : Nat) : u32_sub a b < U32 := by
  unfold u32_sub U32; omega

/-- The function `datalim_closedown` returns whenever `FIVEMINS > 0`. -/
theorem datalim_closedown_count_returns (K : Kernel) (hF : 0 < FIVEMINS K) (sk : sock) :
    ∃ n r, datalim_closedown_count K sk = some (n, r) ∧
      n ≤ u32_sub sk.tp.tcp_time_stamp sk.nc.cwnd_valid_ts / FIVEMINS K ∧
      (K.TCP_INIT_CWND ≤ sk.tp.snd_cwnd → K.TCP_INIT_CWND ≤ r.tp.snd_cwnd) ∧
      r.tp.snd_cwnd ≤ max sk.tp.snd_cwnd K.TCP_INIT_CWND ∧
      sk.tp.snd_ssthresh ≤ r.tp.snd_ssthresh ∧
      r.nc.flags = sk.nc.flags ∧ r.nc.head = sk.nc.head ∧ r.nc.psp = sk.nc.psp := by
  apply datalim_loop_returns K hF
  exact lt_of_le_of_lt (Nat.div_le_self _ _) (u32_sub_lt _ _)

/-- Counterexample to C5 as stated: with `cwnd = 40 ≥ 4 * TCP_INIT_CWND` and
`now - cwnd_valid_ts = 600 = 2 * FIVEMINS` exactly, the loop body runs once,
not twice: `cwnd` becomes 20 (not 10) and `cwnd_valid_ts` advances by 300
(not 600). -/
theorem datalim_closedown_two_windows_counterexample :
    4 * K1.TCP_INIT_CWND ≤ sk5.tp.snd_cwnd ∧
      u32_sub sk5.tp.tcp_time_stamp sk5.nc.cwnd_valid_ts = 2 * FIVEMINS K1 ∧
      (datalim_closedown_count K1 sk5).map Prod.fst = some 1 ∧
      (datalim_closedown K1 sk5).map (fun r => r.tp.snd_cwnd) = some 20 ∧
      (datalim_closedown K1 sk5).map (fun r => r.tp.snd_cwnd) ≠
        some (sk5.tp.snd_cwnd / 2 / 2) ∧
      (datalim_closedown K1 sk5).map (fun r => r.nc.cwnd_valid_ts) = some 300 ∧
      (datalim_closedown K1 sk5).map (fun r => r.nc.cwnd_valid_ts) ≠
        some (u32_add sk5.nc.cwnd_valid_ts (2 * FIVEMINS K1)) := by
  decide

/-- C5 (amended): for every state with `cwnd ≥ 4 * TCP_INIT_CWND` (and
`FIVEMINS > 0`), when `now - cwnd_valid_ts` is exactly `2 * FIVEMINS` the loop
of `datalim_closedown` runs its body exactly once (`cwnd` becomes `cwnd / 2`,
`cwnd_valid_ts` advances by `FIVEMINS`); it runs the body exactly twice
(`cwnd` becomes `(cwnd / 2) / 2`, `cwnd_valid_ts` advances by exactly
`2 * FIVEMINS`) when `2 * FIVEMINS < now - cwnd_valid_ts ≤ 3 * FIVEMINS`. -/
theorem datalim_closedown_windows (K : Kernel) (sk : sock)
    (hF : 0 < FIVEMINS K) (hc : 4 * K.TCP_INIT_CWND ≤ sk.tp.snd_cwnd) :
    (u32_sub sk.tp.tcp_time_stamp sk.nc.cwnd_valid_ts = 2 * FIVEMINS K →
        ∃ r, datalim_closedown_count K sk = some (1, r) ∧
          datalim_closedown K sk = some r ∧
          r.tp.snd_cwnd = sk.tp.snd_cwnd / 2 ∧
          r.nc.cwnd_valid_ts = u32_add sk.nc.cwnd_valid_ts (FIVEMINS K)) ∧
      (2 * FIVEMINS K < u32_sub sk.tp.tcp_time_stamp sk.nc.cwnd_valid_ts →
        u32_sub sk.tp.tcp_time_stamp sk.nc.cwnd_valid_ts ≤ 3 * FIVEMINS K →
        ∃ r, datalim_closedown_count K sk = some (2, r) ∧
          datalim_closedown K sk = some r ∧
          r.tp.snd_cwnd = sk.tp.snd_cwnd / 2 / 2 ∧
          r.nc.cwnd_valid_ts = u32_add sk.nc.cwnd_valid_ts (2 * FIVEMINS K)) := by
  have hU1 : 0 < U32 := by decide
  have hU2 : 0 < U32 - 1 := by decide
  have hU3 : 0 < U32 - 1 - 1 := by decide
  have hadd2 : u32_add (u32_add sk.nc.cwnd_valid_ts (FIVEMINS K)) (FIVEMINS K) =
      u32_add sk.nc.cwnd_valid_ts (2 * FIVEMINS K) := by
    unfold u32_add U32; omega
  have hm1 : max (sk.tp.snd_cwnd / 2) K.TCP_INIT_CWND = sk.tp.snd_cwnd / 2 :=
    max_eq_left (by omega)
  have hm2 : max (sk.tp.snd_cwnd / 2 / 2) K.TCP_INIT_CWND = sk.tp.snd_cwnd / 2 / 2 :=
    max_eq_left (by omega)
  constructor
  · intro hd
    have h1 : FIVEMINS K < u32_sub sk.tp.tcp_time_stamp sk.nc.cwnd_valid_ts := by omega
    have h2 : ¬ FIVEMINS K <
        u32_sub (datalim_body K (u32_add sk.nc.cwnd_valid_ts (FIVEMINS K)) sk).tp.tcp_time_stamp
          (u32_add sk.nc.cwnd_valid_ts (FIVEMINS K)) := by
      have := u32_sub_step _ _ _ h1
      simp only [datalim_body]
      omega
    have hcount : datalim_closedown_count K sk =
        some (1, datalim_body K (u32_add sk.nc.cwnd_valid_ts (FIVEMINS K)) sk) := by
      unfold datalim_closedown_count
      rw [datalim_loop_unfold K U32 _ _ hU1, if_pos h1,
        datalim_loop_unfold K (U32 - 1) _ _ hU2, if_neg h2]
    refine ⟨_, hcount, ?_, ?_, rfl⟩
    · simp only [datalim_closedown, hcount, Option.map_some']
    · simp only [datalim_body, hm1]
  · intro hlo hhi
    have h1 : FIVEMINS K < u32_sub sk.tp.tcp_time_stamp sk.nc.cwnd_valid_ts := by omega
    have e1 := u32_sub_step _ _ _ h1
    have h2 : FIVEMINS K <
        u32_sub (datalim_body K (u32_add sk.nc.cwnd_valid_ts (FIVEMINS K)) sk).tp.tcp_time_stamp
          (u32_add sk.nc.cwnd_valid_ts (FIVEMINS K)) := by
      simp only [datalim_body]
      omega
    have h2b : FIVEMINS K <
        u32_sub sk.tp.tcp_time_stamp (u32_add sk.nc.cwnd_valid_ts (FIVEMINS K)) := by
      omega
    have e2 := u32_sub_step _ _ _ h2b
    have h3 : ¬ FIVEMINS K <
        u32_sub (datalim_body K (u32_add (u32_add sk.nc.cwnd_valid_ts (FIVEMINS K)) (FIVEMINS K))
            (datalim_body K (u32_add sk.nc.cwnd_valid_ts (FIVEMINS K)) sk)).tp.tcp_time_stamp
          (u32_add (u32_add sk.nc.cwnd_valid_ts (FIVEMINS K)) (FIVEMINS K)) := by
      simp only [datalim_body]
      omega
    have hcount : datalim_closedown_count K sk =
        some (2, datalim_body K (u32_add (u32_add sk.nc.cwnd_valid_ts (FIVEMINS K)) (FIVEMINS K))
          (datalim_body K (u32_add sk.nc.cwnd_valid_ts (FIVEMINS K)) sk)) := by
      unfold datalim_closedown_count
      rw [datalim_loop_unfold K U32 _ _ hU1, if_pos h1,
        datalim_loop_unfold K (U32 - 1) _ _ hU2, if_pos h2,
        datalim_loop_unfold K (U32 - 1 - 1) _ _ hU3, if_neg h3]
    refine ⟨_, hcount, ?_, ?_, ?_⟩
    · simp only [datalim_closedown, hcount, Option.map_some']
    · simp only [datalim_body, hm1, hm2]
    · simp only [datalim_body, hadd2]

/-- Witness for C5 (amended): `sk5` at exactly two windows runs the body once
and `sk5b`, between two and three windows, is covered by the second part. -/
theorem datalim_closedown_windows_witness :
    (∃ r, datalim_closedown_count K1 sk5 = some (1, r) ∧
        datalim_closedown K1 sk5 = some r ∧
        r.tp.snd_cwnd = sk5.tp.snd_cwnd / 2 ∧
        r.nc.cwnd_valid_ts = u32_add sk5.nc.cwnd_valid_ts (FIVEMINS K1)) ∧
      (∃ r, datalim_closedown_count K1 sk5b = some (2, r) ∧
        datalim_closedown K1 sk5b = some r ∧
        r.tp.snd_cwnd = sk5b.tp.snd_cwnd / 2 / 2 ∧
        r.nc.cwnd_valid_ts = u32_add sk5b.nc.cwnd_valid_ts (2 * FIVEMINS K1)) :=
  ⟨(datalim_closedown_windows K1 sk5 (by decide) (by decide)).1 (by decide),
    (datalim_closedown_windows K1 sk5b (by decide) (by decide)).2 (by decide) (by decide)⟩

/-! ## Recovery -/

/-- The pipeACK in segments: 0 when the pipeACK is undefined or the segment
size is 0, otherwise the `u32` value of the pipeACK divided by the segment
size, which for a non-negative `int` is the integer quotient. -/
theorem pipeack_segments_eq (sk : sock) :
    (sk.nc.pipeack = UNDEF_PIPEACK ∨ sk.tp.mss_cache = 0 → pipeack_segments sk = 0) ∧
      (sk.nc.pipeack ≠ UNDEF_PIPEACK → sk.tp.mss_cache ≠ 0 →
        pipeack_segments sk = to_u32 sk.nc.pipeack / sk.tp.mss_cache) ∧
      (0 ≤ sk.nc.pipeack → sk.nc.pipeack < 2 ^ 31 → sk.tp.mss_cache ≠ 0 →
        ((pipeack_segments sk : Nat) : Int) = sk.nc.pipeack / (sk.tp.mss_cache : Int)) := by
  refine ⟨?_, ?_, ?_⟩
  · rintro (h | h)
    · simp [pipeack_segments, divide_or_zero, h]
    · simp [pipeack_segments, divide_or_zero, h]
  · intro h1 h2
    simp [pipeack_segments, divide_or_zero, h1, h2]
  · intro h0 h1 h2
    have hu : sk.nc.pipeack ≠ UNDEF_PIPEACK := by unfold UNDEF_PIPEACK; omega
    obtain ⟨n, hn⟩ := Int.eq_ofNat_of_zero_le h0
    have e : to_u32 sk.nc.pipeack = n := by
      unfold to_u32; rw [hn] at h1 ⊢; omega
    simp only [pipeack_segments, divide_or_zero, if_neg hu, if_neg h2, e]
    rw [hn]
    exact Int.natCast_div n sk.tp.mss_cache

/-- C6: evaluation of the code where the retransmissions since the snapshot
(3) exceed `max(pipeack_segments, prior_in_flight)` (1): the `u32`
subtraction wraps and `tcp_newcwv_end_recovery` sets `cwnd` to
`(2^32 - 2) / 2 = 2147483647` segments instead of the restart window 1. -/
theorem tcp_newcwv_end_recovery_wraps :
    max (pipeack_segments sk6) sk6.nc.prior_in_flight ≤
        u32_sub sk6.tp.total_retrans sk6.nc.prior_retrans ∧
      (tcp_newcwv_end_recovery K1 sk6).tp.snd_cwnd = 2147483647 ∧
      (tcp_newcwv_end_recovery K1 sk6).tp.snd_cwnd ≠
        max 1 ((((max (pipeack_segments sk6) sk6.nc.prior_in_flight : Nat) : Int) -
          ((sk6.tp.total_retrans : Int) - (sk6.nc.prior_retrans : Int))) / 2).toNat := by
  decide

/-- When the retransmissions since the snapshot do not exceed
`max(pipeack_segments, prior_in_flight)`, `tcp_newcwv_end_recovery` sets
`cwnd` to half the difference, floored at one segment. -/
theorem tcp_newcwv_end_recovery_cwnd_of_le (K : Kernel) (sk : sock)
    (hp : sk.nc.prior_in_flight < 2 ^ 32)
    (hle : u32_sub sk.tp.total_retrans sk.nc.prior_retrans ≤
      max (pipeack_segments sk) sk.nc.prior_in_flight) :
    (tcp_newcwv_end_recovery K sk).tp.snd_cwnd =
      max 1 ((max (pipeack_segments sk) sk.nc.prior_in_flight -
        u32_sub sk.tp.total_retrans sk.nc.prior_retrans) / 2) := by
  have hseg : pipeack_segments sk < 2 ^ 32 := by
    have hu : ∀ x : Int, to_u32 x < 2 ^ 32 := by intro x; unfold to_u32; omega
    unfold pipeack_segments divide_or_zero
    split
    · omega
    · split
      · exact lt_of_le_of_lt (Nat.div_le_self _ _) (by omega)
      · exact lt_of_le_of_lt (Nat.div_le_self _ _) (hu _)
  have hm : max (pipeack_segments sk) sk.nc.prior_in_flight < 2 ^ 32 := max_lt hseg hp
  have hsub : u32_sub (max (pipeack_segments sk) sk.nc.prior_in_flight)
      (u32_sub sk.tp.total_retrans sk.nc.prior_retrans) =
      max (pipeack_segments sk) sk.nc.prior_in_flight -
        u32_sub sk.tp.total_retrans sk.nc.prior_retrans := by
    generalize max (pipeack_segments sk) sk.nc.prior_in_flight = m at hm hle ⊢
    generalize u32_sub sk.tp.total_retrans sk.nc.prior_retrans = r at hle ⊢
    unfold u32_sub U32; omega
  simp only [tcp_newcwv_end_recovery, tcp_newcwv_init, hsub, TCP_RESTART_WINDOW]
  split <;> omega

/-- C7: `tcp_newcwv_enter_recovery` sets the recovery flag and sets `cwnd` to
`max(1, max(pipeack_segments, prior_in_flight) / 2)`, where `pipeack_segments`
is 0 when the pipeACK is undefined or `mss` is 0 and `pipeack / mss`
otherwise; the new `cwnd` is at least 1, and `ssthresh`, the sample buffer,
the pipeACK and everything else but the flags and `cwnd` are unchanged. -/
theorem tcp_newcwv_enter_recovery_spec (sk : sock) :
    (tcp_newcwv_enter_recovery sk).nc.flags &&& IS_RECOVERY = IS_RECOVERY ∧
      (tcp_newcwv_enter_recovery sk).tp.snd_cwnd =
        max 1 (max (pipeack_segments sk) sk.nc.prior_in_flight / 2) ∧
      1 ≤ (tcp_newcwv_enter_recovery sk).tp.snd_cwnd ∧
      (sk.nc.pipeack = UNDEF_PIPEACK ∨ sk.tp.mss_cache = 0 → pipeack_segments sk = 0) ∧
      (sk.nc.pipeack ≠ UNDEF_PIPEACK → sk.tp.mss_cache ≠ 0 →
        pipeack_segments sk = to_u32 sk.nc.pipeack / sk.tp.mss_cache) ∧
      (0 ≤ sk.nc.pipeack → sk.nc.pipeack < 2 ^ 31 → sk.tp.mss_cache ≠ 0 →
        ((pipeack_segments sk : Nat) : Int) = sk.nc.pipeack / (sk.tp.mss_cache : Int)) ∧
      (tcp_newcwv_enter_recovery sk).tp.snd_ssthresh = sk.tp.snd_ssthresh ∧
      (tcp_newcwv_enter_recovery sk).nc.psample = sk.nc.psample ∧
      (tcp_newcwv_enter_recovery sk).nc.time_stamp = sk.nc.time_stamp ∧
      (tcp_newcwv_enter_recovery sk).nc.head = sk.nc.head ∧
      (tcp_newcwv_enter_recovery sk).nc.pipeack = sk.nc.pipeack ∧
      (tcp_newcwv_enter_recovery sk).nc =
        { sk.nc with flags := sk.nc.flags ||| IS_RECOVERY } ∧
      (tcp_newcwv_enter_recovery sk).tp =
        { sk.tp with snd_cwnd := max 1 (max (pipeack_segments sk) sk.nc.prior_in_flight / 2) } ∧
      (tcp_newcwv_enter_recovery sk).icsk_ca_state = sk.icsk_ca_state := by
  have hflag : (sk.nc.flags ||| IS_RECOVERY) &&& IS_RECOVERY = IS_RECOVERY := by
    apply Nat.eq_of_testBit_eq
    intro i
    simp only [Nat.testBit_land, Nat.testBit_lor]
    cases Nat.testBit sk.nc.flags i <;> cases Nat.testBit IS_RECOVERY i <;> rfl
  have hcwnd : (if max (pipeack_segments sk) sk.nc.prior_in_flight / 2 < 1 then 1
      else max (pipeack_segments sk) sk.nc.prior_in_flight / 2) =
      max 1 (max (pipeack_segments sk) sk.nc.prior_in_flight / 2) := by
    split <;> omega
  obtain ⟨p1, p2, p3⟩ := pipeack_segments_eq sk
  refine ⟨hflag, ?_, ?_, p1, p2, p3, rfl, rfl, rfl, rfl, rfl, rfl, ?_, rfl⟩
  · simp only [tcp_newcwv_enter_recovery, hcwnd]
  · simp only [tcp_newcwv_enter_recovery, hcwnd]; omega
  · simp only [tcp_newcwv_enter_recovery, hcwnd]

/-- Witness for C7: the connection `sk7` (pipeACK 30000 bytes, `mss = 1000`,
`prior_in_flight = 10`), where `pipeack_segments = 30` and `cwnd` becomes 15. -/
theorem tcp_newcwv_enter_recovery_spec_witness :
    (tcp_newcwv_enter_recovery sk7).nc.flags &&& IS_RECOVERY = IS_RECOVERY ∧
      (tcp_newcwv_enter_recovery sk7).tp.snd_cwnd =
        max 1 (max (pipeack_segments sk7) sk7.nc.prior_in_flight / 2) ∧
      pipeack_segments sk7 = to_u32 sk7.nc.pipeack / sk7.tp.mss_cache ∧
      ((pipeack_segments sk7 : Nat) : Int) = sk7.nc.pipeack / (sk7.tp.mss_cache : Int) :=
  ⟨(tcp_newcwv_enter_recovery_spec sk7).1,
    (tcp_newcwv_enter_recovery_spec sk7).2.1,
    (tcp_newcwv_enter_recovery_spec sk7).2.2.2.2.1 (by decide) (by decide),
    (tcp_newcwv_enter_recovery_spec sk7).2.2.2.2.2.1 (by decide) (by decide) (by decide)⟩

/-! ## The per-ACK update -/

/-- Setting the bit `IS_VALID` makes the test `flags & IS_VALID` succeed. -/
theorem flags_set_valid (f : Nat) : (f ||| IS_VALID) &&& IS_VALID = IS_VALID := by
  apply Nat.eq_of_testBit_eq
  intro i
  simp only [Nat.testBit_land, Nat.testBit_lor]
  cases Nat.testBit f i <;> cases Nat.testBit IS_VALID i <;> rfl

/-- Clearing the bit `IS_VALID` makes the test `flags & IS_VALID` fail. -/
theorem flags_clear_valid (f : Nat) : (f &&& (65535 - IS_VALID)) &&& IS_VALID = 0 := by
  have h : (65535 - IS_VALID) &&& IS_VALID = 0 := by decide
  rw [Nat.and_assoc, h, Nat.and_zero]

/-- With `head < 4` the loop of `remove_expired_element` returns from the
`i`-th visited bin within `4 - i` iterations; the record it returns is the
old one, or the old one with one defined and expired bin marked undefined. -/
theorem remove_expired_loop_returns (nc : newcwv) (tp : tcp_sock) (hhead : nc.head < 4) :
    ∀ (fuel i : Nat) (tmp : Int), i < 4 → 4 - i ≤ fuel →
      ∃ r nc1, remove_expired_loop fuel nc tp (bin_back nc.head i) tmp = some (r, nc1) ∧
        (nc1 = nc ∨ ∃ k, k < 4 ∧ nc.psample k ≠ UNDEF_PIPEACK ∧
          nc.time_stamp k < u32_sub tp.tcp_time_stamp nc.psp ∧
          nc1 = mark_undefined nc k) := by
  intro fuel
  induction fuel with
  | zero => intro i tmp hi hf; exact absurd hf (by omega)
  | succ f ih =>
    intro i tmp hi hf
    have hk : bin_back nc.head i < 4 := by rw [bin_back_eq nc.head hhead i]; omega
    by_cases hdef : nc.psample (bin_back nc.head i) ≠ UNDEF_PIPEACK
    · by_cases hexp : nc.time_stamp (bin_back nc.head i) < u32_sub tp.tcp_time_stamp nc.psp
      · refine ⟨tmp, mark_undefined nc (bin_back nc.head i), ?_,
          Or.inr ⟨_, hk, hdef, hexp, rfl⟩⟩
        simp only [remove_expired_loop, if_pos hdef, if_pos hexp]
      · by_cases hback : prevbin (bin_back nc.head i) = nc.head
        · refine ⟨if tmp < nc.psample (bin_back nc.head i) then
            nc.psample (bin_back nc.head i) else tmp, nc, ?_, Or.inl rfl⟩
          simp only [remove_expired_loop, if_pos hdef, if_neg hexp, if_pos hback]
        · have hi1 : i + 1 < 4 := by
            have h4 := bin_back_eq nc.head hhead (i + 1)
            simp only [bin_back] at h4
            rw [h4] at hback
            by_contra hcon
            have : i = 3 := by omega
            subst this
            omega
          obtain ⟨r, nc1, hr, hfr⟩ :=
            ih (i + 1) (if tmp < nc.psample (bin_back nc.head i) then
              nc.psample (bin_back nc.head i) else tmp) hi1 (by omega)
          refine ⟨r, nc1, ?_, hfr⟩
          simp only [remove_expired_loop, if_pos hdef, if_neg hexp, if_neg hback]
          exact hr
    · refine ⟨tmp, nc, ?_, Or.inl rfl⟩
      simp only [remove_expired_loop, if_neg hdef]

/-- With `head < 4`, `remove_expired_element` returns, and the record it
returns differs from the old one at most in one defined and expired bin
that is marked undefined. -/
theorem remove_expired_element_returns (nc : newcwv) (tp : tcp_sock) (hhead : nc.head < 4) :
    ∃ r nc1, remove_expired_element nc tp = some (r, nc1) ∧
      (nc1 = nc ∨ ∃ k, k < 4 ∧ nc.psample k ≠ UNDEF_PIPEACK ∧
        nc.time_stamp k < u32_sub tp.tcp_time_stamp nc.psp ∧
        nc1 = mark_undefined nc k) :=
  remove_expired_loop_returns nc tp hhead 5 0 (nc.psample nc.head) (by omega) (by omega)

/-- Taking a sample keeps the head inside the buffer. -/
theorem update_pipeack_sample_head (nc : newcwv) (tp : tcp_sock) (hhead : nc.head < 4) :
    (update_pipeack_sample nc tp).head < 4 := by
  unfold update_pipeack_sample
  simp only
  split
  · exact Nat.mod_lt _ (by decide)
  · split <;> exact hhead

/-- With `head < 4` the sampling and filtering part of `update_pipeack`
returns a record whose head is inside the buffer. -/
theorem update_pipeack_filter_returns (K : Kernel) (sk : sock) (hhead : sk.nc.head < 4) :
    ∃ nc3, update_pipeack_filter K sk = some nc3 ∧ nc3.head < 4 := by
  have h1 : (if ({ sk.nc with psp := psp_value K sk.tp } : newcwv).prev_snd_nxt ≤ sk.tp.snd_una
      then update_pipeack_sample { sk.nc with psp := psp_value K sk.tp } sk.tp
      else { sk.nc with psp := psp_value K sk.tp }).head < 4 := by
    split
    · exact update_pipeack_sample_head _ _ hhead
    · exact hhead
  obtain ⟨r, nc2, hr, hfr⟩ := remove_expired_element_returns _ sk.tp h1
  refine ⟨{ nc2 with pipeack := r }, ?_, ?_⟩
  · simp only [update_pipeack_filter, hr]
  · rcases hfr with h | ⟨k, _, _, _, h⟩ <;> rw [h] <;> exact h1

/-- The function `datalim_closedown` returns whenever `FIVEMINS > 0`; see
`datalim_loop_returns` for what it guarantees. -/
theorem datalim_closedown_returns (K : Kernel) (hF : 0 < FIVEMINS K) (sk : sock) :
    ∃ r, datalim_closedown K sk = some r ∧
      (K.TCP_INIT_CWND ≤ sk.tp.snd_cwnd → K.TCP_INIT_CWND ≤ r.tp.snd_cwnd) ∧
      r.tp.snd_cwnd ≤ max sk.tp.snd_cwnd K.TCP_INIT_CWND ∧
      sk.tp.snd_ssthresh ≤ r.tp.snd_ssthresh ∧
      r.nc.flags = sk.nc.flags ∧ r.nc.head = sk.nc.head ∧ r.nc.psp = sk.nc.psp := by
  obtain ⟨n, r, hr, _, h⟩ := datalim_closedown_count_returns K hF sk
  exact ⟨r, by simp only [datalim_closedown, hr, Option.map_some'], h⟩

/-- With `head < 4` and `FIVEMINS > 0`, `update_pipeack` returns, and the
`cwnd` it leaves is no larger than the larger of the old `cwnd` and the
initial window. -/
theorem update_pipeack_returns (K : Kernel) (sk : sock)
    (hhead : sk.nc.head < 4) (hF : 0 < FIVEMINS K) :
    ∃ r, update_pipeack K sk = some r ∧
      r.tp.snd_cwnd ≤ max sk.tp.snd_cwnd K.TCP_INIT_CWND ∧ r.nc.head < 4 := by
  obtain ⟨nc3, h3, hh3⟩ := update_pipeack_filter_returns K sk hhead
  by_cases hv : tcp_is_in_vp sk.tp nc3.pipeack = true
  · refine ⟨{ sk with nc := { nc3 with flags := nc3.flags ||| IS_VALID
                                       cwnd_valid_ts := sk.tp.tcp_time_stamp } }, ?_,
      le_max_left _ _, hh3⟩
    simp only [update_pipeack, h3, if_pos hv]
  · obtain ⟨r, hr, _, hc, _, _, hh, _⟩ := datalim_closedown_returns K hF
      { sk with nc := { nc3 with flags := nc3.flags &&& (65535 - IS_VALID) } }
    exact ⟨r, by simp only [update_pipeack, h3, if_neg hv, hr], hc, by rw [hh]; exact hh3⟩

/-- Counterexample to C8 as stated: `sk8` is non-validated with `cwnd = 2`;
after `tcp_newcwv_cong_avoid` the validated flag is clear and the connection
is not cwnd-limited, yet `cwnd` is 10 > 2, because `datalim_closedown` floors
the halved window at `TCP_INIT_CWND = 10`. -/
theorem tcp_newcwv_cong_avoid_suppressed_counterexample :
    sk8.tp.snd_cwnd = 2 ∧
      (tcp_newcwv_cong_avoid K1 sk8 0 0).map
          (fun r => (r.nc.flags &&& IS_VALID, K1.tcp_is_cwnd_limited r, r.tp.snd_cwnd)) =
        some (0, false, 10) ∧
      ¬ (10 ≤ sk8.tp.snd_cwnd) := by
  decide

/-- C8 (amended): for every state with `head < 4` (and `FIVEMINS > 0`),
`tcp_newcwv_cong_avoid` returns, and when after `update_pipeack` the validated
flag is clear and `tcp_is_cwnd_limited` is false, the increase primitive is
not applied: the call returns the state `update_pipeack` produced, in which
the flag is clear and the connection not cwnd-limited, and the `cwnd` after
the call is no larger than the larger of the `cwnd` before the call and
`TCP_INIT_CWND`; so it is no larger than the `cwnd` before the call whenever
that was at least `TCP_INIT_CWND`. -/
theorem tcp_newcwv_cong_avoid_suppressed (K : Kernel) (sk : sock) (ack acked : Nat)
    (hhead : sk.nc.head < 4) (hF : 0 < FIVEMINS K) :
    ∃ sk2 r,
      update_pipeack K
          { sk with nc := { sk.nc with prior_in_flight := tcp_packets_in_flight sk.tp
                                       prior_retrans := sk.tp.total_retrans } } = some sk2 ∧
        tcp_newcwv_cong_avoid K sk ack acked = some r ∧
        (sk2.nc.flags &&& IS_VALID = 0 → K.tcp_is_cwnd_limited sk2 = false →
          r = sk2 ∧
          r.nc.flags &&& IS_VALID = 0 ∧ K.tcp_is_cwnd_limited r = false ∧
          r.tp.snd_cwnd ≤ max sk.tp.snd_cwnd K.TCP_INIT_CWND ∧
          (K.TCP_INIT_CWND ≤ sk.tp.snd_cwnd → r.tp.snd_cwnd ≤ sk.tp.snd_cwnd)) := by
  obtain ⟨sk2, h2, hc, _⟩ := update_pipeack_returns K
    { sk with nc := { sk.nc with prior_in_flight := tcp_packets_in_flight sk.tp
                                 prior_retrans := sk.tp.total_retrans } } hhead hF
  simp only at hc
  by_cases hsup : sk2.nc.flags &&& IS_VALID = 0 ∧ K.tcp_is_cwnd_limited sk2 = false
  · refine ⟨sk2, sk2, h2, ?_, fun h1 h3 => ⟨rfl, h1, h3, hc, fun hi => ?_⟩⟩
    · simp only [tcp_newcwv_cong_avoid, h2, if_pos hsup]
    · rw [max_eq_left hi] at hc; exact hc
  · by_cases hss : sk2.tp.snd_cwnd ≤ sk2.tp.snd_ssthresh
    · refine ⟨sk2, { sk2 with tp := K.tcp_slow_start sk2.tp acked }, h2, ?_,
        fun h1 h3 => absurd ⟨h1, h3⟩ hsup⟩
      simp only [tcp_newcwv_cong_avoid, h2, if_neg hsup, if_pos hss]
    · refine ⟨sk2, { sk2 with tp := K.tcp_cong_avoid_ai sk2.tp sk2.tp.snd_cwnd acked }, h2, ?_,
        fun h1 h3 => absurd ⟨h1, h3⟩ hsup⟩
      simp only [tcp_newcwv_cong_avoid, h2, if_neg hsup, if_neg hss]

/-- Witness for C8 (amended): the connection `sk8` under the kernel `K1`. -/
theorem tcp_newcwv_cong_avoid_suppressed_witness :
    ∃ sk2 r,
      update_pipeack K1
          { sk8 with nc := { sk8.nc with prior_in_flight := tcp_packets_in_flight sk8.tp
                                         prior_retrans := sk8.tp.total_retrans } } = some sk2 ∧
        tcp_newcwv_cong_avoid K1 sk8 0 0 = some r ∧
        (sk2.nc.flags &&& IS_VALID = 0 → K1.tcp_is_cwnd_limited sk2 = false →
          r = sk2 ∧
          r.nc.flags &&& IS_VALID = 0 ∧ K1.tcp_is_cwnd_limited r = false ∧
          r.tp.snd_cwnd ≤ max sk8.tp.snd_cwnd K1.TCP_INIT_CWND ∧
          (K1.TCP_INIT_CWND ≤ sk8.tp.snd_cwnd → r.tp.snd_cwnd ≤ sk8.tp.snd_cwnd)) :=
  tcp_newcwv_cong_avoid_suppressed K1 sk8 0 0 (by decide) (by decide)

/-- C9: `datalim_closedown` (which returns whenever `FIVEMINS > 0`) never
takes `cwnd` below the initial window: if `cwnd ≥ TCP_INIT_CWND` before the
call then `cwnd ≥ TCP_INIT_CWND` after it, however many times the loop body
runs, and `ssthresh` after the call is at least `ssthresh` before it. -/
theorem datalim_closedown_floor (K : Kernel) (sk : sock) (hF : 0 < FIVEMINS K) :
    ∃ n r, datalim_closedown_count K sk = some (n, r) ∧
      datalim_closedown K sk = some r ∧
      (K.TCP_INIT_CWND ≤ sk.tp.snd_cwnd → K.TCP_INIT_CWND ≤ r.tp.snd_cwnd) ∧
      sk.tp.snd_ssthresh ≤ r.tp.snd_ssthresh := by
  obtain ⟨n, r, hr, _, hc, _, hs, _⟩ := datalim_closedown_count_returns K hF sk
  exact ⟨n, r, hr, by simp only [datalim_closedown, hr, Option.map_some'], hc, hs⟩

/-- Witness for C9: the connection `sk5b`, on which the loop body runs twice. -/
theorem datalim_closedown_floor_witness :
    ∃ n r, datalim_closedown_count K1 sk5b = some (n, r) ∧
      datalim_closedown K1 sk5b = some r ∧
      (K1.TCP_INIT_CWND ≤ sk5b.tp.snd_cwnd → K1.TCP_INIT_CWND ≤ r.tp.snd_cwnd) ∧
      sk5b.tp.snd_ssthresh ≤ r.tp.snd_ssthresh :=
  datalim_closedown_floor K1 sk5b (by decide)

/-! ## Where the inactivity guard is invoked -/

/-- Counterexample to C10 as stated: `sk10` has the validated flag set, yet
the event transmission-resumed (`CA_EVENT_TX_START`) at time 601, more than
two windows after `cwnd_valid_ts = 0`, runs the decay: `cwnd` goes from 40 to
10, `ssthresh` from 10 to 30 and `cwnd_valid_ts` from 0 to 600. -/
theorem tcp_newcwv_event_tx_start_counterexample :
    sk10.nc.flags &&& IS_VALID = IS_VALID ∧
      sk10.tp.snd_cwnd = 40 ∧ sk10.tp.snd_ssthresh = 10 ∧ sk10.nc.cwnd_valid_ts = 0 ∧
      (tcp_newcwv_event K1 sk10 .CA_EVENT_TX_START).map
          (fun r => (r.tp.snd_cwnd, r.tp.snd_ssthresh, r.nc.cwnd_valid_ts)) =
        some (10, 30, 600) := by
  decide

/-- C10 (amended): `update_pipeack` (the only callee of `cong_avoid` that
reaches the decay) runs `datalim_closedown` only on a state whose validated
flag has just been cleared, and leaves `cwnd` and `ssthresh` alone when the
window is validated; `in_ack_event` never runs it; of the events only
`CA_EVENT_TX_START` runs it, and it does so whatever the validated flag is,
leaving the whole state (`cwnd`, `ssthresh`, `cwnd_valid_ts`) unchanged when
`now - cwnd_valid_ts ≤ FIVEMINS`. -/
theorem datalim_closedown_invocation (K : Kernel) (sk : sock) :
    (∀ nc3, update_pipeack_filter K sk = some nc3 →
        (tcp_is_in_vp sk.tp nc3.pipeack = true →
          ∃ r, update_pipeack K sk = some r ∧ r.tp = sk.tp ∧
            r.nc.flags &&& IS_VALID = IS_VALID ∧
            r.nc.cwnd_valid_ts = sk.tp.tcp_time_stamp) ∧
        (tcp_is_in_vp sk.tp nc3.pipeack = false →
          ∃ sk1, sk1.nc.flags &&& IS_VALID = 0 ∧ sk1.tp = sk.tp ∧
            update_pipeack K sk = datalim_closedown K sk1)) ∧
      (∀ flags, tcp_newcwv_in_ack_event K sk flags = sk ∨
        tcp_newcwv_in_ack_event K sk flags = tcp_newcwv_enter_recovery sk) ∧
      tcp_newcwv_event K sk .CA_EVENT_TX_START = datalim_closedown K sk ∧
      (u32_sub sk.tp.tcp_time_stamp sk.nc.cwnd_valid_ts ≤ FIVEMINS K →
        tcp_newcwv_event K sk .CA_EVENT_TX_START = some sk) ∧
      (tcp_newcwv_event K sk .CA_EVENT_COMPLETE_CWR = some sk ∨
        tcp_newcwv_event K sk .CA_EVENT_COMPLETE_CWR = some (tcp_newcwv_end_recovery K sk)) ∧
      tcp_newcwv_event K sk .CA_EVENT_LOSS = some (tcp_newcwv_init K sk) ∧
      tcp_newcwv_event K sk .CA_EVENT_CWND_RESTART = some sk ∧
      (∀ n, tcp_newcwv_event K sk (.other n) = some sk) := by
  refine ⟨fun nc3 h3 => ⟨fun hv => ?_, fun hv => ?_⟩, fun flags => ?_, rfl, fun hd => ?_, ?_,
    rfl, rfl, fun _ => rfl⟩
  · refine ⟨{ sk with nc := { nc3 with flags := nc3.flags ||| IS_VALID
                                       cwnd_valid_ts := sk.tp.tcp_time_stamp } }, ?_, rfl,
      flags_set_valid _, rfl⟩
    simp only [update_pipeack, h3, if_pos hv]
  · refine ⟨{ sk with nc := { nc3 with flags := nc3.flags &&& (65535 - IS_VALID) } },
      flags_clear_valid _, rfl, ?_⟩
    have hv2 : ¬ tcp_is_in_vp sk.tp nc3.pipeack = true := by rw [hv]; decide
    simp only [update_pipeack, h3, if_neg hv2]
  · unfold tcp_newcwv_in_ack_event
    split
    · split
      · split
        · exact Or.inr rfl
        · exact Or.inl rfl
      · exact Or.inl rfl
    · exact Or.inl rfl
  · have hn : ¬ FIVEMINS K < u32_sub sk.tp.tcp_time_stamp sk.nc.cwnd_valid_ts := by omega
    simp only [tcp_newcwv_event, datalim_closedown, datalim_closedown_count]
    rw [datalim_loop_unfold K U32 _ _ (by decide), if_neg hn]
    rfl
  · simp only [tcp_newcwv_event]
    split
    · exact Or.inr rfl
    · exact Or.inl rfl

/-- Witness for C10 (amended): the validated connection `sk10` taken back to
time 200, within the first window, where `CA_EVENT_TX_START` changes nothing;
and the connection `sk8`, on which `update_pipeack` finds the window
non-validated and reaches the decay with the validated flag cleared. -/
theorem datalim_closedown_invocation_witness :
    tcp_newcwv_event K1 { sk10 with tp := tp3 } .CA_EVENT_TX_START =
        some { sk10 with tp := tp3 } ∧
      (∃ nc3, update_pipeack_filter K1 sk8 = some nc3 ∧
        tcp_is_in_vp sk8.tp nc3.pipeack = false ∧
        ∃ sk1, sk1.nc.flags &&& IS_VALID = 0 ∧ sk1.tp = sk8.tp ∧
          update_pipeack K1 sk8 = datalim_closedown K1 sk1) := by
  refine ⟨(datalim_closedown_invocation K1 { sk10 with tp := tp3 }).2.2.2.1 (by decide), ?_⟩
  have hd : (update_pipeack_filter K1 sk8).map (fun nc3 => tcp_is_in_vp sk8.tp nc3.pipeack) =
      some false := by decide
  obtain ⟨nc3, h3, _⟩ := update_pipeack_filter_returns K1 sk8 (by decide)
  rw [h3] at hd
  have hv : tcp_is_in_vp sk8.tp nc3.pipeack = false := by
    simpa only [Option.map_some', Option.some.injEq] using hd
  exact ⟨nc3, h3, hv, ((datalim_closedown_invocation K1 sk8).1 nc3 h3).2 hv⟩

/-! ## Initialisation and the end of recovery -/

/-- The bit `IS_RECOVERY` is clear in the flags word `IS_VALID`. -/
theorem is_valid_land_is_recovery : IS_VALID &&& IS_RECOVERY = 0 := by decide

/-- C11: after `tcp_newcwv_end_recovery`, `ssthresh` equals `cwnd`, the
recovery flag is clear, and the NewCWV record is the one `tcp_newcwv_init`
produces on the same connection (pipeACK undefined, validated, head bin
undefined, `cwnd_valid_ts = now`); the connection differs from a fresh init
only in `cwnd` and `ssthresh`.  With the pipeACK undefined,
`prior_in_flight = 10` and two retransmissions since the snapshot, `cwnd` and
`ssthresh` are 4. -/
theorem tcp_newcwv_end_recovery_resets (K : Kernel) (sk : sock) :
    (tcp_newcwv_end_recovery K sk).tp.snd_ssthresh =
        (tcp_newcwv_end_recovery K sk).tp.snd_cwnd ∧
      (tcp_newcwv_end_recovery K sk).nc.flags &&& IS_RECOVERY = 0 ∧
      (tcp_newcwv_end_recovery K sk).nc = (tcp_newcwv_init K sk).nc ∧
      (tcp_newcwv_end_recovery K sk).nc.pipeack = UNDEF_PIPEACK ∧
      (tcp_newcwv_end_recovery K sk).nc.flags &&& IS_VALID = IS_VALID ∧
      (tcp_newcwv_end_recovery K sk).nc.psample (tcp_newcwv_end_recovery K sk).nc.head =
        UNDEF_PIPEACK ∧
      (tcp_newcwv_end_recovery K sk).nc.cwnd_valid_ts = sk.tp.tcp_time_stamp ∧
      (tcp_newcwv_end_recovery K sk).tp =
        { (tcp_newcwv_init K sk).tp with
          snd_cwnd := (tcp_newcwv_end_recovery K sk).tp.snd_cwnd
          snd_ssthresh := (tcp_newcwv_end_recovery K sk).tp.snd_cwnd } ∧
      (tcp_newcwv_end_recovery K sk).icsk_ca_state = (tcp_newcwv_init K sk).icsk_ca_state ∧
      (sk.nc.pipeack = UNDEF_PIPEACK → sk.nc.prior_in_flight = 10 →
        u32_sub sk.tp.total_retrans sk.nc.prior_retrans = 2 →
        (tcp_newcwv_end_recovery K sk).tp.snd_cwnd = 4 ∧
        (tcp_newcwv_end_recovery K sk).tp.snd_ssthresh = 4) := by
  refine ⟨rfl, is_valid_land_is_recovery, rfl, rfl, ?_, ?_, rfl, rfl, rfl, ?_⟩
  · show IS_VALID &&& IS_VALID = IS_VALID
    decide
  · simp only [tcp_newcwv_end_recovery, tcp_newcwv_init, Function.update_same]
  · intro hp hf hr
    have hseg : pipeack_segments sk = 0 := by
      simp [pipeack_segments, divide_or_zero, hp]
    have hc : (tcp_newcwv_end_recovery K sk).tp.snd_cwnd = 4 := by
      simp only [tcp_newcwv_end_recovery, tcp_newcwv_init, hseg, hf, hr]
      decide
    exact ⟨hc, hc⟩

/-- Witness for C11: the connection `sk11`. -/
theorem tcp_newcwv_end_recovery_resets_witness :
    sk11.nc.pipeack = UNDEF_PIPEACK ∧ sk11.nc.prior_in_flight = 10 ∧
      u32_sub sk11.tp.total_retrans sk11.nc.prior_retrans = 2 ∧
      (tcp_newcwv_end_recovery K1 sk11).tp.snd_cwnd = 4 ∧
      (tcp_newcwv_end_recovery K1 sk11).tp.snd_ssthresh = 4 :=
  ⟨by decide, by decide, by decide,
    (tcp_newcwv_end_recovery_resets K1 sk11).2.2.2.2.2.2.2.2.2 (by decide) (by decide)
      (by decide)⟩

/-- C12: whatever the prior state held, after `tcp_newcwv_init` the pipeACK
is undefined, the validated flag is set, the recovery flag is clear,
`cwnd_valid_ts = now`, `head = 0` and the head bin is undefined, so that
`remove_expired_element` called next returns the undefined sentinel and
leaves the record unchanged; and `tcp_newcwv_init` is idempotent. -/
theorem tcp_newcwv_init_baseline (K : Kernel) (sk : sock) :
    (tcp_newcwv_init K sk).nc.pipeack = UNDEF_PIPEACK ∧
      (tcp_newcwv_init K sk).nc.flags &&& IS_VALID = IS_VALID ∧
      (tcp_newcwv_init K sk).nc.flags &&& IS_RECOVERY = 0 ∧
      (tcp_newcwv_init K sk).nc.cwnd_valid_ts = sk.tp.tcp_time_stamp ∧
      (tcp_newcwv_init K sk).nc.head = 0 ∧
      (tcp_newcwv_init K sk).nc.psample 0 = UNDEF_PIPEACK ∧
      (tcp_newcwv_init K sk).nc.psp = psp_value K sk.tp ∧
      remove_expired_element (tcp_newcwv_init K sk).nc (tcp_newcwv_init K sk).tp =
        some (UNDEF_PIPEACK, (tcp_newcwv_init K sk).nc) ∧
      tcp_newcwv_init K (tcp_newcwv_init K sk) = tcp_newcwv_init K sk := by
  have h0 : (tcp_newcwv_init K sk).nc.psample 0 = UNDEF_PIPEACK := by
    simp only [tcp_newcwv_init, Function.update_same]
  refine ⟨rfl, ?_, is_valid_land_is_recovery, rfl, rfl, h0, rfl, ?_, ?_⟩
  · show IS_VALID &&& IS_VALID = IS_VALID
    decide
  · have hh : (tcp_newcwv_init K sk).nc.psample (tcp_newcwv_init K sk).nc.head =
        UNDEF_PIPEACK := h0
    simp only [remove_expired_element, remove_expired_loop, hh, ne_eq, not_true_eq_false,
      if_false]
  · simp only [tcp_newcwv_init, Function.update_idem]

/-! ## Event dispatch, ssthresh and undo -/

/-- C16: `tcp_newcwv_event` dispatches as follows: `CA_EVENT_COMPLETE_CWR`
is `tcp_newcwv_end_recovery` when the validated flag is clear and a no-op
when it is set; `CA_EVENT_LOSS` is `tcp_newcwv_init`; `CA_EVENT_TX_START` is
`datalim_closedown`; `CA_EVENT_CWND_RESTART` and every other event leave the
connection unchanged. -/
theorem tcp_newcwv_event_dispatch (K : Kernel) (sk : sock) :
    (sk.nc.flags &&& IS_VALID = 0 →
        tcp_newcwv_event K sk .CA_EVENT_COMPLETE_CWR = some (tcp_newcwv_end_recovery K sk)) ∧
      (sk.nc.flags &&& IS_VALID ≠ 0 →
        tcp_newcwv_event K sk .CA_EVENT_COMPLETE_CWR = some sk) ∧
      tcp_newcwv_event K sk .CA_EVENT_LOSS = some (tcp_newcwv_init K sk) ∧
      tcp_newcwv_event K sk .CA_EVENT_TX_START = datalim_closedown K sk ∧
      tcp_newcwv_event K sk .CA_EVENT_CWND_RESTART = some sk ∧
      (∀ n, tcp_newcwv_event K sk (.other n) = some sk) := by
  refine ⟨fun h => ?_, fun h => ?_, rfl, rfl, rfl, fun _ => rfl⟩
  · simp only [tcp_newcwv_event, if_pos h]
  · simp only [tcp_newcwv_event, if_neg h]

/-- Witness for C16: the non-validated connection `sk11` completes its
recovery, the validated connection `sk10` ignores the event. -/
theorem tcp_newcwv_event_dispatch_witness :
    tcp_newcwv_event K1 sk11 .CA_EVENT_COMPLETE_CWR = some (tcp_newcwv_end_recovery K1 sk11) ∧
      tcp_newcwv_event K1 sk10 .CA_EVENT_COMPLETE_CWR = some sk10 :=
  ⟨(tcp_newcwv_event_dispatch K1 sk11).1 (by decide),
    (tcp_newcwv_event_dispatch K1 sk10).2.1 (by decide)⟩

/-- C17: when `sacked_out + lost_out ≤ packets_out + retrans_out` and
`packets_in_flight = packets_out - sacked_out - lost_out + retrans_out` fits
in 32 bits, `tcp_newcwv_ssthresh` returns `max(packets_in_flight / 2, 2)`;
the result is at least 2 and does not depend on the NewCWV record.  For
`packets_out = 10`, `sacked_out = 2`, `lost_out = 1`, `retrans_out = 0` it
returns 3. -/
theorem tcp_newcwv_ssthresh_spec (sk : sock)
    (hle : sk.tp.sacked_out + sk.tp.lost_out ≤ sk.tp.packets_out + sk.tp.retrans_out)
    (hfit : sk.tp.packets_out + sk.tp.retrans_out - (sk.tp.sacked_out + sk.tp.lost_out) <
      2 ^ 32) :
    tcp_newcwv_ssthresh sk =
        max ((sk.tp.packets_out + sk.tp.retrans_out -
          (sk.tp.sacked_out + sk.tp.lost_out)) / 2) 2 ∧
      2 ≤ tcp_newcwv_ssthresh sk ∧
      (∀ nc : newcwv, tcp_newcwv_ssthresh { sk with nc := nc } = tcp_newcwv_ssthresh sk) ∧
      (sk.tp.packets_out = 10 → sk.tp.sacked_out = 2 → sk.tp.lost_out = 1 →
        sk.tp.retrans_out = 0 → tcp_newcwv_ssthresh sk = 3) := by
  have hpif : u32_add (u32_sub (u32_sub sk.tp.packets_out sk.tp.sacked_out) sk.tp.lost_out)
      sk.tp.retrans_out =
      sk.tp.packets_out + sk.tp.retrans_out - (sk.tp.sacked_out + sk.tp.lost_out) := by
    unfold u32_add u32_sub U32
    omega
  have hval : tcp_newcwv_ssthresh sk =
      max ((sk.tp.packets_out + sk.tp.retrans_out -
        (sk.tp.sacked_out + sk.tp.lost_out)) / 2) 2 := by
    simp only [tcp_newcwv_ssthresh, hpif]
  refine ⟨hval, ?_, fun _ => rfl, fun h1 h2 h3 h4 => ?_⟩
  · rw [hval]; exact le_max_right _ _
  · rw [hval, h1, h2, h3, h4]; decide

/-- Witness for C17: the connection `sk17`. -/
theorem tcp_newcwv_ssthresh_spec_witness :
    tcp_newcwv_ssthresh sk17 =
        max ((sk17.tp.packets_out + sk17.tp.retrans_out -
          (sk17.tp.sacked_out + sk17.tp.lost_out)) / 2) 2 ∧
      tcp_newcwv_ssthresh sk17 = 3 :=
  ⟨(tcp_newcwv_ssthresh_spec sk17 (by decide) (by decide)).1,
    (tcp_newcwv_ssthresh_spec sk17 (by decide) (by decide)).2.2.2 (by decide) (by decide)
      (by decide) (by decide)⟩

/-- C18: `tcp_newcwv_undo_cwnd` returns
`max(max(cwnd, prior_cwnd), ssthresh / 2)`; the result is at least `cwnd`,
at least `prior_cwnd`, at least `ssthresh / 2`, and it is one of these three
values.  For `cwnd = 10`, `prior_cwnd = 20`, `ssthresh = 8` it returns 20. -/
theorem tcp_newcwv_undo_cwnd_spec (sk : sock) :
    tcp_newcwv_undo_cwnd sk =
        max (max sk.tp.snd_cwnd sk.tp.prior_cwnd) (sk.tp.snd_ssthresh / 2) ∧
      sk.tp.snd_cwnd ≤ tcp_newcwv_undo_cwnd sk ∧
      sk.tp.prior_cwnd ≤ tcp_newcwv_undo_cwnd sk ∧
      sk.tp.snd_ssthresh / 2 ≤ tcp_newcwv_undo_cwnd sk ∧
      (tcp_newcwv_undo_cwnd sk = sk.tp.snd_cwnd ∨
        tcp_newcwv_undo_cwnd sk = sk.tp.prior_cwnd ∨
        tcp_newcwv_undo_cwnd sk = sk.tp.snd_ssthresh / 2) ∧
      (sk.tp.snd_cwnd = 10 → sk.tp.prior_cwnd = 20 → sk.tp.snd_ssthresh = 8 →
        tcp_newcwv_undo_cwnd sk = 20) := by
  have hval : tcp_newcwv_undo_cwnd sk =
      max (max sk.tp.snd_cwnd sk.tp.prior_cwnd) (sk.tp.snd_ssthresh / 2) := rfl
  rw [hval]
  refine ⟨rfl, ?_, ?_, ?_, ?_, ?_⟩ <;> omega

/-- Witness for C18: the connection `sk18`. -/
theorem tcp_newcwv_undo_cwnd_spec_witness :
    sk18.tp.snd_cwnd = 10 ∧ sk18.tp.prior_cwnd = 20 ∧ sk18.tp.snd_ssthresh = 8 ∧
      tcp_newcwv_undo_cwnd sk18 = 20 :=
  ⟨by decide, by decide, by decide,
    (tcp_newcwv_undo_cwnd_spec sk18).2.2.2.2.2 (by decide) (by decide) (by decide)⟩

/-! ## The sampler scenario -/

/-- Counterexample to C13 as stated: at time 150 the head bin (sample 90,
time stamp 40) is itself older than `150 - 100`; `remove_expired_element`
marks that bin undefined and leaves the bin holding 80 as it was, so the
oldest bin is not the one expired and the bin holding 90 is not live. -/
theorem sampler_scenario_counterexample :
    nc13_3.psp = 100 ∧ nc13_3.head = 1 ∧
      nc13_3.psample 0 = 80 ∧ nc13_3.time_stamp 0 = 0 ∧
      nc13_3.psample 1 = 90 ∧ nc13_3.time_stamp 1 = 40 ∧
      (remove_expired_element nc13_3 (tp13 220 150)).map
          (fun r => (r.1, r.2.psample 0, r.2.psample 1)) =
        some (90, 80, UNDEF_PIPEACK) := by
  decide

/-- C13 (amended): with `psp = 100`, from the init baseline with head time
stamp 0, the sample 50 at time 0 gives one live bin holding 50; the sample 80
at time 10 merges into the same bin (80, no new bin); the sample 90 at time
40 opens a new bin holding 90 and the old bin keeps 80.  Then
`remove_expired_element` at time 150 finds the head bin itself (time stamp
40 < 150 - 100) expired, marks it undefined and leaves the bin holding 80
untouched; called instead at a time `100 < t ≤ 140` it marks the oldest bin
(80, time stamp 0) undefined, returns the estimate 90 that excludes it, and
leaves the bin holding 90 live. -/
theorem sampler_scenario :
    (nc13_0.psp = 100 ∧ nc13_0.head = 0 ∧ nc13_0.psample 0 = UNDEF_PIPEACK ∧
        nc13_0.time_stamp 0 = 0) ∧
      (nc13_1.head = 0 ∧ nc13_1.psample 0 = 50 ∧
        ∀ i, i < 4 → i ≠ 0 → nc13_1.psample i = UNDEF_PIPEACK) ∧
      (nc13_2.head = 0 ∧ nc13_2.psample 0 = 80 ∧ nc13_2.time_stamp 0 = 0 ∧
        ∀ i, i < 4 → i ≠ 0 → nc13_2.psample i = UNDEF_PIPEACK) ∧
      (nc13_3.head = 1 ∧ nc13_3.psample 1 = 90 ∧ nc13_3.time_stamp 1 = 40 ∧
        nc13_3.psample 0 = 80 ∧ nc13_3.time_stamp 0 = 0 ∧
        ∀ i, i < 4 → i ≠ 0 → i ≠ 1 → nc13_3.psample i = UNDEF_PIPEACK) ∧
      (∃ r, remove_expired_element nc13_3 (tp13 220 150) = some (r, mark_undefined nc13_3 1) ∧
        (mark_undefined nc13_3 1).psample 1 = UNDEF_PIPEACK ∧
        (mark_undefined nc13_3 1).psample 0 = 80) ∧
      (∀ t, 100 < t → t ≤ 140 →
        remove_expired_element nc13_3 (tp13 220 t) = some (90, mark_undefined nc13_3 0) ∧
        (mark_undefined nc13_3 0).psample 0 = UNDEF_PIPEACK ∧
        (mark_undefined nc13_3 0).psample 1 = 90 ∧
        (mark_undefined nc13_3 0).head = 1) := by
  have hhead : nc13_3.head = 1 := by decide
  have hp1 : nc13_3.psample 1 = 90 := by decide
  have hp0 : nc13_3.psample 0 = 80 := by decide
  have ht1 : nc13_3.time_stamp 1 = 40 := by decide
  have ht0 : nc13_3.time_stamp 0 = 0 := by decide
  have hpsp : nc13_3.psp = 100 := by decide
  refine ⟨by decide, by decide, by decide, by decide, ⟨90, ?_, by decide, by decide⟩, ?_⟩
  · have c1 : nc13_3.time_stamp 1 < u32_sub (tp13 220 150).tcp_time_stamp nc13_3.psp := by
      decide
    have d1 : nc13_3.psample 1 ≠ UNDEF_PIPEACK := by decide
    rw [remove_expired_element, hhead]
    simp only [remove_expired_loop, if_pos d1, if_pos c1]
    rw [hp1]
  · intro t hlo hhi
    have hsub : u32_sub (tp13 220 t).tcp_time_stamp nc13_3.psp = t - 100 := by
      rw [hpsp]
      show u32_sub t 100 = t - 100
      unfold u32_sub U32
      omega
    have c1 : ¬ nc13_3.time_stamp 1 < u32_sub (tp13 220 t).tcp_time_stamp nc13_3.psp := by
      rw [hsub, ht1]; omega
    have c0 : nc13_3.time_stamp 0 < u32_sub (tp13 220 t).tcp_time_stamp nc13_3.psp := by
      rw [hsub, ht0]; omega
    have d1 : nc13_3.psample 1 ≠ UNDEF_PIPEACK := by decide
    have d0 : nc13_3.psample 0 ≠ UNDEF_PIPEACK := by decide
    have hprev : prevbin 1 = 0 := by decide
    have hne : ¬ (0 = nc13_3.head) := by rw [hhead]; decide
    have hmax : (if nc13_3.psample 1 < nc13_3.psample 1 then nc13_3.psample 1
        else nc13_3.psample 1) = 90 := by rw [hp1]; decide
    refine ⟨?_, by decide, by decide, by decide⟩
    rw [remove_expired_element, hhead]
    simp only [remove_expired_loop, if_pos d1, if_neg c1, hprev, if_neg hne, if_pos d0,
      if_pos c0, hmax]

/-- Witness for C13 (amended): the sampler of the scenario at time 140. -/
theorem sampler_scenario_witness :
    remove_expired_element nc13_3 (tp13 220 140) = some (90, mark_undefined nc13_3 0) ∧
      (mark_undefined nc13_3 0).psample 0 = UNDEF_PIPEACK ∧
      (mark_undefined nc13_3 0).psample 1 = 90 ∧
      (mark_undefined nc13_3 0).head = 1 :=
  sampler_scenario.2.2.2.2.2 140 (by decide) (by decide)

/-! ## The state invariant -/

/-- The sampling period stored by `update_pipeack` and `tcp_newcwv_init` is
`max(3 * (srtt_us >> 3) mod 2^32, HZ)`, at least `HZ`, for a constant `HZ`
that fits in 32 bits. -/
theorem psp_value_eq (K : Kernel) (tp : tcp_sock) (hz : K.HZ < 2 ^ 32) :
    psp_value K tp = max ((3 * (tp.srtt_us / 8)) % 2 ^ 32) K.HZ ∧ K.HZ ≤ psp_value K tp := by
  have h : K.HZ % U32 = K.HZ := Nat.mod_eq_of_lt hz
  have e : psp_value K tp = max ((3 * (tp.srtt_us / 8)) % 2 ^ 32) K.HZ := by
    simp only [psp_value, u32_mul, h]
    rfl
  exact ⟨e, by rw [e]; exact le_max_right _ _⟩

/-- Taking a sample changes neither the sampling period nor the flags. -/
theorem update_pipeack_sample_frame (nc : newcwv) (tp : tcp_sock) :
    (update_pipeack_sample nc tp).psp = nc.psp ∧
      (update_pipeack_sample nc tp).flags = nc.flags := by
  unfold update_pipeack_sample
  simp only
  split
  · exact ⟨rfl, rfl⟩
  · split <;> exact ⟨rfl, rfl⟩

/-- With `head < 4` the sampling and filtering part of `update_pipeack`
returns a record with the head inside the buffer, the recomputed sampling
period and the old flags. -/
theorem update_pipeack_filter_frame (K : Kernel) (sk : sock) (hhead : sk.nc.head < 4) :
    ∃ nc3, update_pipeack_filter K sk = some nc3 ∧ nc3.head < 4 ∧
      nc3.psp = psp_value K sk.tp ∧ nc3.flags = sk.nc.flags := by
  have h1 : (if ({ sk.nc with psp := psp_value K sk.tp } : newcwv).prev_snd_nxt ≤ sk.tp.snd_una
      then update_pipeack_sample { sk.nc with psp := psp_value K sk.tp } sk.tp
      else { sk.nc with psp := psp_value K sk.tp }).head < 4 := by
    split
    · exact update_pipeack_sample_head _ _ hhead
    · exact hhead
  have h2 : (if ({ sk.nc with psp := psp_value K sk.tp } : newcwv).prev_snd_nxt ≤ sk.tp.snd_una
      then update_pipeack_sample { sk.nc with psp := psp_value K sk.tp } sk.tp
      else { sk.nc with psp := psp_value K sk.tp }).psp = psp_value K sk.tp := by
    split
    · exact (update_pipeack_sample_frame _ _).1
    · rfl
  have h3 : (if ({ sk.nc with psp := psp_value K sk.tp } : newcwv).prev_snd_nxt ≤ sk.tp.snd_una
      then update_pipeack_sample { sk.nc with psp := psp_value K sk.tp } sk.tp
      else { sk.nc with psp := psp_value K sk.tp }).flags = sk.nc.flags := by
    split
    · exact (update_pipeack_sample_frame _ _).2
    · rfl
  obtain ⟨r, nc2, hr, hfr⟩ := remove_expired_element_returns _ sk.tp h1
  refine ⟨{ nc2 with pipeack := r }, ?_, ?_, ?_, ?_⟩
  · simp only [update_pipeack_filter, hr]
  · rcases hfr with h | ⟨k, _, _, _, h⟩ <;> rw [h] <;> exact h1
  · rcases hfr with h | ⟨k, _, _, _, h⟩ <;> rw [h] <;> exact h2
  · rcases hfr with h | ⟨k, _, _, _, h⟩ <;> rw [h] <;> exact h3

/-- With `head < 4` and `FIVEMINS > 0`, `update_pipeack` returns a
connection whose record has the head inside the buffer and the recomputed
sampling period, and whose flags are the old ones with `IS_VALID` set or
cleared. -/
theorem update_pipeack_frame (K : Kernel) (sk : sock)
    (hhead : sk.nc.head < 4) (hF : 0 < FIVEMINS K) :
    ∃ r, update_pipeack K sk = some r ∧ r.nc.head < 4 ∧ r.nc.psp = psp_value K sk.tp ∧
      (r.nc.flags = sk.nc.flags ||| IS_VALID ∨
        r.nc.flags = sk.nc.flags &&& (65535 - IS_VALID)) := by
  obtain ⟨nc3, h3, hh3, hp3, hf3⟩ := update_pipeack_filter_frame K sk hhead
  by_cases hv : tcp_is_in_vp sk.tp nc3.pipeack = true
  · refine ⟨{ sk with nc := { nc3 with flags := nc3.flags ||| IS_VALID
                                       cwnd_valid_ts := sk.tp.tcp_time_stamp } }, ?_,
      hh3, hp3, Or.inl (by rw [← hf3])⟩
    simp only [update_pipeack, h3, if_pos hv]
  · obtain ⟨r, hr, _, _, _, hfl, hh, hp⟩ := datalim_closedown_returns K hF
      { sk with nc := { nc3 with flags := nc3.flags &&& (65535 - IS_VALID) } }
    refine ⟨r, by simp only [update_pipeack, h3, if_neg hv, hr], by rw [hh]; exact hh3,
      by rw [hp]; exact hp3, Or.inr (by rw [hfl, ← hf3])⟩

/-- The record that `tcp_newcwv_cong_avoid` returns is the one
`update_pipeack` produced: the increase primitives touch only the control
block. -/
theorem tcp_newcwv_cong_avoid_frame (K : Kernel) (sk : sock) (ack acked : Nat)
    (hhead : sk.nc.head < 4) (hF : 0 < FIVEMINS K) :
    ∃ r, tcp_newcwv_cong_avoid K sk ack acked = some r ∧ r.nc.head < 4 ∧
      r.nc.psp = psp_value K sk.tp ∧
      (r.nc.flags = sk.nc.flags ||| IS_VALID ∨
        r.nc.flags = sk.nc.flags &&& (65535 - IS_VALID)) := by
  obtain ⟨sk2, h2, hh, hp, hfl⟩ := update_pipeack_frame K
    { sk with nc := { sk.nc with prior_in_flight := tcp_packets_in_flight sk.tp
                                 prior_retrans := sk.tp.total_retrans } } hhead hF
  by_cases hsup : sk2.nc.flags &&& IS_VALID = 0 ∧ K.tcp_is_cwnd_limited sk2 = false
  · exact ⟨sk2, by simp only [tcp_newcwv_cong_avoid, h2, if_pos hsup], hh, hp, hfl⟩
  · by_cases hss : sk2.tp.snd_cwnd ≤ sk2.tp.snd_ssthresh
    · exact ⟨{ sk2 with tp := K.tcp_slow_start sk2.tp acked },
        by simp only [tcp_newcwv_cong_avoid, h2, if_neg hsup, if_pos hss], hh, hp, hfl⟩
    · exact ⟨{ sk2 with tp := K.tcp_cong_avoid_ai sk2.tp sk2.tp.snd_cwnd acked },
        by simp only [tcp_newcwv_cong_avoid, h2, if_neg hsup, if_neg hss], hh, hp, hfl⟩

/-- C14: with a constant `0 < HZ < 2^32`, the invariant `head < 4` and
`psp > 0` holds after `tcp_newcwv_init` for every smoothed RTT (also when
`3 * (srtt_us >> 3)` overflows 32 bits), and every public operation
(`cong_avoid`, `cwnd_event` for each event, `in_ack_event`) returns and
preserves it; after init and after every `cong_avoid` the sampling period is
`max(3 * (srtt_us >> 3) mod 2^32, HZ)`, which is at least `HZ`. -/
theorem newcwv_inv_preserved (K : Kernel) (sk : sock)
    (hz : 0 < K.HZ) (hz32 : K.HZ < 2 ^ 32) :
    (newcwv_inv (tcp_newcwv_init K sk).nc ∧
        (tcp_newcwv_init K sk).nc.psp = max ((3 * (sk.tp.srtt_us / 8)) % 2 ^ 32) K.HZ ∧
        K.HZ ≤ (tcp_newcwv_init K sk).nc.psp) ∧
      (newcwv_inv sk.nc →
        (∀ ack acked, ∃ r, tcp_newcwv_cong_avoid K sk ack acked = some r ∧
          newcwv_inv r.nc ∧
          r.nc.psp = max ((3 * (sk.tp.srtt_us / 8)) % 2 ^ 32) K.HZ ∧ K.HZ ≤ r.nc.psp) ∧
        (∀ event, ∃ r, tcp_newcwv_event K sk event = some r ∧ newcwv_inv r.nc) ∧
        (∀ flags, newcwv_inv (tcp_newcwv_in_ack_event K sk flags).nc)) := by
  have hF : 0 < FIVEMINS K := by unfold FIVEMINS; omega
  obtain ⟨hpsp, hge⟩ := psp_value_eq K sk.tp hz32
  have hinit : newcwv_inv (tcp_newcwv_init K sk).nc := by
    refine ⟨(by show (0 : Nat) < 4; decide), ?_⟩
    show 0 < psp_value K sk.tp
    omega
  refine ⟨⟨hinit, hpsp, hge⟩, fun hinv => ⟨fun ack acked => ?_, fun event => ?_, fun flags => ?_⟩⟩
  · obtain ⟨r, hr, hh, hp, _⟩ := tcp_newcwv_cong_avoid_frame K sk ack acked hinv.1 hF
    refine ⟨r, hr, ⟨hh, by rw [hp]; omega⟩, by rw [hp]; exact hpsp, by rw [hp]; exact hge⟩
  · cases event with
    | CA_EVENT_TX_START =>
      obtain ⟨r, hr, _, _, _, _, hh, hp⟩ := datalim_closedown_returns K hF sk
      exact ⟨r, hr, by rw [newcwv_inv, hh, hp]; exact hinv⟩
    | CA_EVENT_CWND_RESTART => exact ⟨sk, rfl, hinv⟩
    | CA_EVENT_COMPLETE_CWR =>
      by_cases hv : sk.nc.flags &&& IS_VALID = 0
      · refine ⟨tcp_newcwv_end_recovery K sk, by simp only [tcp_newcwv_event, if_pos hv], ?_⟩
        exact hinit
      · exact ⟨sk, by simp only [tcp_newcwv_event, if_neg hv], hinv⟩
    | CA_EVENT_LOSS => exact ⟨tcp_newcwv_init K sk, rfl, hinit⟩
    | other n => exact ⟨sk, rfl, hinv⟩
  · unfold tcp_newcwv_in_ack_event
    split
    · split
      · split
        · exact hinv
        · exact hinv
      · exact hinv
    · exact hinv

/-- Witness for C14: the connection `sk14`, whose smoothed RTT makes
`3 * (srtt_us >> 3)` wrap, under the kernel `K13` with `HZ = 100`. -/
theorem newcwv_inv_preserved_witness :
    (newcwv_inv (tcp_newcwv_init K13 sk14).nc ∧
        (tcp_newcwv_init K13 sk14).nc.psp =
          max ((3 * (sk14.tp.srtt_us / 8)) % 2 ^ 32) K13.HZ ∧
        K13.HZ ≤ (tcp_newcwv_init K13 sk14).nc.psp) ∧
      (∀ ack acked, ∃ r, tcp_newcwv_cong_avoid K13 sk14 ack acked = some r ∧
        newcwv_inv r.nc ∧
        r.nc.psp = max ((3 * (sk14.tp.srtt_us / 8)) % 2 ^ 32) K13.HZ ∧ K13.HZ ≤ r.nc.psp) ∧
      (∀ event, ∃ r, tcp_newcwv_event K13 sk14 event = some r ∧ newcwv_inv r.nc) ∧
      (∀ flags, newcwv_inv (tcp_newcwv_in_ack_event K13 sk14 flags).nc) :=
  ⟨(newcwv_inv_preserved K13 sk14 (by decide) (by decide)).1,
    (newcwv_inv_preserved K13 sk14 (by decide) (by decide)).2 ⟨by decide, by decide⟩⟩

/-! ## The slow-path acknowledgment hook -/

/-- A flags word that holds only the two bits of the module is zero exactly
when both bits are clear. -/
theorem flags_eq_zero_iff (f : Nat) (hf : f < 4) :
    f = 0 ↔ (f &&& IS_RECOVERY = 0 ∧ f &&& IS_VALID = 0) := by
  interval_cases f <;> decide

/-- The flags word holds only the bits `IS_RECOVERY` and `IS_VALID` after
`tcp_newcwv_init`, and every operation of the module keeps it so. -/
theorem flags_lt_four_preserved (K : Kernel) (sk : sock) (hF : 0 < FIVEMINS K) :
    (tcp_newcwv_init K sk).nc.flags < 4 ∧
      (tcp_newcwv_end_recovery K sk).nc.flags < 4 ∧
      (sk.nc.flags < 4 → (tcp_newcwv_enter_recovery sk).nc.flags < 4) ∧
      (sk.nc.flags < 4 → ∀ flags, (tcp_newcwv_in_ack_event K sk flags).nc.flags < 4) ∧
      (sk.nc.flags < 4 → sk.nc.head < 4 → ∀ ack acked,
        ∃ r, tcp_newcwv_cong_avoid K sk ack acked = some r ∧ r.nc.flags < 4) ∧
      (sk.nc.flags < 4 → ∀ event,
        ∃ r, tcp_newcwv_event K sk event = some r ∧ r.nc.flags < 4) := by
  have hor : ∀ f : Nat, f < 4 → f ||| IS_RECOVERY < 4 := by
    intro f hf; interval_cases f <;> decide
  have horv : ∀ f : Nat, f < 4 → f ||| IS_VALID < 4 := by
    intro f hf; interval_cases f <;> decide
  have hinit : (tcp_newcwv_init K sk).nc.flags < 4 := by
    show IS_VALID < 4
    decide
  have hend : (tcp_newcwv_end_recovery K sk).nc.flags < 4 := by
    show IS_VALID < 4
    decide
  refine ⟨hinit, hend, fun hf => hor _ hf, fun hf flags => ?_, fun hf hh ack acked => ?_,
    fun hf event => ?_⟩
  · unfold tcp_newcwv_in_ack_event
    split
    · split
      · split
        · exact hor _ hf
        · exact hf
      · exact hf
    · exact hf
  · obtain ⟨r, hr, _, _, hfl⟩ := tcp_newcwv_cong_avoid_frame K sk ack acked hh hF
    refine ⟨r, hr, ?_⟩
    rcases hfl with h | h
    · rw [h]; exact horv _ hf
    · rw [h]; exact lt_of_le_of_lt Nat.and_le_left hf
  · cases event with
    | CA_EVENT_TX_START =>
      obtain ⟨r, hr, _, _, _, hfl, _, _⟩ := datalim_closedown_returns K hF sk
      exact ⟨r, hr, by rw [hfl]; exact hf⟩
    | CA_EVENT_CWND_RESTART => exact ⟨sk, rfl, hf⟩
    | CA_EVENT_COMPLETE_CWR =>
      by_cases hv : sk.nc.flags &&& IS_VALID = 0
      · exact ⟨tcp_newcwv_end_recovery K sk, by simp only [tcp_newcwv_event, if_pos hv], hend⟩
      · exact ⟨sk, by simp only [tcp_newcwv_event, if_neg hv], hf⟩
    | CA_EVENT_LOSS => exact ⟨tcp_newcwv_init K sk, rfl, hinit⟩
    | other n => exact ⟨sk, rfl, hf⟩

/-- C15: in a state of the module (the flags word holds only `IS_RECOVERY` and
`IS_VALID`), `tcp_newcwv_in_ack_event` is `tcp_newcwv_enter_recovery` when
the slow-path flag is set, the congestion state is `TCP_CA_Recovery` and both
the recovery flag and the validated flag are clear; in every other case (a
fast-path ack, any other congestion state, or either flag set) it leaves the
connection unchanged. -/
theorem tcp_newcwv_in_ack_event_spec (K : Kernel) (sk : sock) (flags : Nat)
    (hfl : sk.nc.flags < 4) :
    (flags &&& K.CA_ACK_SLOWPATH ≠ 0 → sk.icsk_ca_state = .TCP_CA_Recovery →
        sk.nc.flags &&& IS_RECOVERY = 0 → sk.nc.flags &&& IS_VALID = 0 →
        tcp_newcwv_in_ack_event K sk flags = tcp_newcwv_enter_recovery sk) ∧
      (flags &&& K.CA_ACK_SLOWPATH = 0 ∨ sk.icsk_ca_state ≠ .TCP_CA_Recovery ∨
          sk.nc.flags &&& IS_RECOVERY ≠ 0 ∨ sk.nc.flags &&& IS_VALID ≠ 0 →
        tcp_newcwv_in_ack_event K sk flags = sk) := by
  have hz := flags_eq_zero_iff sk.nc.flags hfl
  constructor
  · intro hs hst hr hv
    have h0 : sk.nc.flags = 0 := hz.mpr ⟨hr, hv⟩
    simp only [tcp_newcwv_in_ack_event, hst, h0, if_true, hs, ne_eq, not_false_eq_true]
  · intro h
    unfold tcp_newcwv_in_ack_event
    split
    · rename_i hs
      split
      · rename_i hst
        split
        · rename_i h0
          rcases h with h | h | h | h
          · exact absurd h hs
          · exact absurd hst h
          · exact absurd (hz.mp h0).1 h
          · exact absurd (hz.mp h0).2 h
        · rfl
      · rfl
    · rfl

/-- Witness for C15: the connection `sk15` (in `TCP_CA_Recovery`, no flag
set) on a slow-path ack, and the validated connection `sk10` on the same
ack. -/
theorem tcp_newcwv_in_ack_event_spec_witness :
    tcp_newcwv_in_ack_event K1 sk15 1 = tcp_newcwv_enter_recovery sk15 ∧
      tcp_newcwv_in_ack_event K1 sk10 1 = sk10 :=
  ⟨(tcp_newcwv_in_ack_event_spec K1 sk15 1 (by decide)).1 (by decide) (by decide)
      (by decide) (by decide),
    (tcp_newcwv_in_ack_event_spec K1 sk10 1 (by decide)).2
      (Or.inr (Or.inl (by decide)))⟩

/-! ## Termination of the decay loop -/

/-- The result of the loop of `datalim_closedown` does not depend on the
fuel: two runs that both return give the same result. -/
theorem datalim_loop_unique (K : Kernel) :
    ∀ (f1 f2 nc_ts : Nat) (sk : sock) (x y : Nat × sock),
      datalim_loop K f1 nc_ts sk = some x → datalim_loop K f2 nc_ts sk = some y → x = y := by
  intro f1
  induction f1 with
  | zero => intro f2 nc_ts sk x y h1; exact absurd h1 (by simp [datalim_loop])
  | succ f ih =>
    intro f2 nc_ts sk x y h1 h2
    cases f2 with
    | zero => exact absurd h2 (by simp [datalim_loop])
    | succ g =>
      simp only [datalim_loop] at h1 h2
      by_cases hd : FIVEMINS K < u32_sub sk.tp.tcp_time_stamp nc_ts
      · rw [if_pos hd] at h1 h2
        cases ha : datalim_loop K f (u32_add nc_ts (FIVEMINS K))
          (datalim_body K (u32_add nc_ts (FIVEMINS K)) sk) with
        | none => rw [ha] at h1; exact absurd h1 (by simp)
        | some a =>
          cases hb : datalim_loop K g (u32_add nc_ts (FIVEMINS K))
            (datalim_body K (u32_add nc_ts (FIVEMINS K)) sk) with
          | none => rw [hb] at h2; exact absurd h2 (by simp)
          | some b =>
            have hab : a = b := ih g _ _ a b ha hb
            rw [ha] at h1
            rw [hb, ← hab] at h2
            exact Option.some.inj (h1.symm.trans h2)
      · rw [if_neg hd] at h1 h2
        exact Option.some.inj (h1.symm.trans h2)

/-- The wrapping difference `u32_sub a b` is `(a - b) mod 2^32`. -/
theorem u32_sub_eq_emod (a b : Nat) :
    u32_sub a b = (((a : Int) - (b : Int)) % 2 ^ 32).toNat := by
  unfold u32_sub U32
  omega

/-- C19: for every `now` and `cwnd_valid_ts` (also `now < cwnd_valid_ts`,
where the unsigned difference wraps) and `FIVEMINS > 0`, the decay loop of
`datalim_closedown` returns, with any fuel above the number of whole windows
in `(now - cwnd_valid_ts) mod 2^32` and with the same result, and the number
of iterations is at most `((now - cwnd_valid_ts) mod 2^32) / FIVEMINS`. -/
theorem datalim_closedown_terminates (K : Kernel) (sk : sock) (hF : 0 < FIVEMINS K) :
    ∃ n r, datalim_closedown_count K sk = some (n, r) ∧
      datalim_closedown K sk = some r ∧
      n ≤ (((sk.tp.tcp_time_stamp : Int) - (sk.nc.cwnd_valid_ts : Int)) % 2 ^ 32).toNat /
        FIVEMINS K ∧
      n < 2 ^ 32 ∧
      ∀ fuel, (((sk.tp.tcp_time_stamp : Int) - (sk.nc.cwnd_valid_ts : Int)) % 2 ^ 32).toNat /
          FIVEMINS K < fuel →
        datalim_loop K fuel sk.nc.cwnd_valid_ts sk = some (n, r) := by
  obtain ⟨n, r, hr, hn, _⟩ := datalim_closedown_count_returns K hF sk
  have hlt : n < 2 ^ 32 :=
    lt_of_le_of_lt hn (lt_of_le_of_lt (Nat.div_le_self _ _) (u32_sub_lt _ _))
  rw [u32_sub_eq_emod] at hn
  refine ⟨n, r, hr, by simp only [datalim_closedown, hr, Option.map_some'], hn, hlt, ?_⟩
  intro fuel hfuel
  rw [← u32_sub_eq_emod] at hfuel
  obtain ⟨m, q, hq, _⟩ := datalim_loop_returns K hF fuel sk.nc.cwnd_valid_ts sk hfuel
  rw [hq]
  exact congrArg some (datalim_loop_unique K _ _ _ _ _ _ hq hr)

/-- Witness for C19: the connection `sk19`, whose clock is behind
`cwnd_valid_ts`. -/
theorem datalim_closedown_terminates_witness :
    sk19.tp.tcp_time_stamp < sk19.nc.cwnd_valid_ts ∧
      ∃ n r, datalim_closedown_count K1 sk19 = some (n, r) ∧
        datalim_closedown K1 sk19 = some r ∧
        n ≤ (((sk19.tp.tcp_time_stamp : Int) - (sk19.nc.cwnd_valid_ts : Int)) % 2 ^ 32).toNat /
          FIVEMINS K1 ∧
        n < 2 ^ 32 ∧
        ∀ fuel,
          (((sk19.tp.tcp_time_stamp : Int) - (sk19.nc.cwnd_valid_ts : Int)) % 2 ^ 32).toNat /
            FIVEMINS K1 < fuel →
          datalim_loop K1 fuel sk19.nc.cwnd_valid_ts sk19 = some (n, r) :=
  ⟨by decide, datalim_closedown_terminates K1 sk19 (by decide)⟩

/-! ## Expiry early after the clock start -/

/-- When the clock has reached the sampling period (`psp ≤ now < 2^32`) and
`head < 4`, `remove_expired_element` returns, changes at most one bin, from
defined to undefined, and every defined bin whose age `now - time_stamp` is
at most `psp` is still defined after the call. -/
theorem remove_expired_element_keeps_fresh (nc : newcwv) (tp : tcp_sock)
    (hhead : nc.head < 4) (hpsp : nc.psp ≤ tp.tcp_time_stamp)
    (hnow : tp.tcp_time_stamp < 2 ^ 32) :
    ∃ r nc1, remove_expired_element nc tp = some (r, nc1) ∧
      (nc1 = nc ∨ ∃ k, k < 4 ∧ nc.psample k ≠ UNDEF_PIPEACK ∧ nc1 = mark_undefined nc k) ∧
      ∀ i, nc.time_stamp i ≤ tp.tcp_time_stamp →
        tp.tcp_time_stamp - nc.time_stamp i ≤ nc.psp →
        nc.psample i ≠ UNDEF_PIPEACK → nc1.psample i ≠ UNDEF_PIPEACK := by
  obtain ⟨r, nc1, hr, hfr⟩ := remove_expired_element_returns nc tp hhead
  have hsub : u32_sub tp.tcp_time_stamp nc.psp = tp.tcp_time_stamp - nc.psp := by
    unfold u32_sub U32; omega
  refine ⟨r, nc1, hr, ?_, ?_⟩
  · rcases hfr with h | ⟨k, hk, hd, _, h⟩
    · exact Or.inl h
    · exact Or.inr ⟨k, hk, hd, h⟩
  · intro i hi hage hdef
    rcases hfr with h | ⟨k, _, _, hexp, h⟩
    · rw [h]; exact hdef
    · rw [hsub] at hexp
      have hik : i ≠ k := by
        intro e; rw [e] at hi hage; omega
      rw [h]
      simp only [mark_undefined, Function.update_noteq hik]
      exact hdef

/-- C20: evaluation of the code early after the clock start.  The sampler
`nc13_1` holds the sample 50 in its head bin with time stamp 0 and
`psp = 100`; at time 10 the bin is 10 ticks old, well inside the sampling
period, yet `now - psp` wraps to `2^32 - 90` and `remove_expired_element`
marks the bin undefined. -/
theorem remove_expired_element_early_clock :
    nc13_1.psp = 100 ∧ nc13_1.head = 0 ∧ nc13_1.psample 0 = 50 ∧
      nc13_1.time_stamp 0 ≤ (tp13 50 10).tcp_time_stamp ∧
      (tp13 50 10).tcp_time_stamp - nc13_1.time_stamp 0 ≤ nc13_1.psp ∧
      u32_sub (tp13 50 10).tcp_time_stamp nc13_1.psp = 4294967206 ∧
      (remove_expired_element nc13_1 (tp13 50 10)).map
          (fun r => (r.1, r.2.psample 0)) = some (50, UNDEF_PIPEACK) := by
  decide

end NewCWV
